import Mathlib

/-!
The capture-to-encoder pipeline of webmlive.

A shallow embedding of `http_client/webm_encoder_dshow.cc`: the pipeline builder
`WebmEncoderImpl`, the device enumerator `CaptureSourceLoader`, and the endpoint
inspector `PinFinder` / `PinInfo`.

The platform (COM / DirectShow) is a record of answers, `Platform`: what each call
returns.  Member variables are explicit state.  The calls that create, configure, bind
or connect platform objects are appended to a call log, so that "this call was never
issued" is a statement about the log.  Read-only inspection (enumerator `Next`,
`QueryDirection`, `EnumMediaTypes`, `BindToStorage`, `Read`) is not logged.

Enumerators follow the COM contract of `IEnumXXX::Next(1, ..)`: `S_OK` with an item
while items remain, `S_FALSE` with a null item afterwards.  Every `for (;;)` loop is
a function with an iteration budget; the member function that contains the loop
supplies a budget that the loop cannot exhaust (one more than the items left).

C++ `int` is `Int` with `wrapInt32` applied where the code increments, and
`static_cast<size_t>` is reduction modulo `2 ^ size_t_bits`.

A member function of `WebmEncoderImpl` ends with an `Outcome`: it returns a status, or
a `_com_error` leaves it.  `graph_builder_->` on a null pointer raises
`_com_error(E_POINTER)` before the call is issued, so the steps that use the graph read
`graph_builder_`; no function of the file catches the error, and it leaves `Init` too.
-/

namespace WebmLive

/-! ## Platform vocabulary -/

/-- A COM result code. -/
abbrev HRESULT := Int

/-- The result code `S_OK`. -/
def S_OK : HRESULT := 0

/-- The result code `S_FALSE`: a success code that is not `S_OK`. -/
def S_FALSE : HRESULT := 1

/-- The macro `FAILED(hr)`: the sign bit is set. -/
def FAILED (hr : HRESULT) : Bool := decide (hr < 0)

/-- The macro `SUCCEEDED(hr)`. -/
def SUCCEEDED (hr : HRESULT) : Bool := decide (0 ≤ hr)

/-- The identifiers (CLSIDs and media major types) the file names; `other` is any
further GUID of the platform. -/
inductive GUID where
  | GUID_NULL
  | CLSID_FilterGraph
  | CLSID_CaptureGraphBuilder2
  | CLSID_SystemDeviceEnum
  | CLSID_VideoInputDeviceCategory
  | CLSID_AudioInputDeviceCategory
  | CLSID_VP8Encoder
  | MEDIATYPE_Audio
  | MEDIATYPE_Video
  | other (n : Nat)
deriving DecidableEq, Repr

/-- The two pin directions. -/
inductive PIN_DIRECTION where
  | PINDIR_INPUT
  | PINDIR_OUTPUT
deriving DecidableEq, Repr

/-- A media type descriptor; only `majortype` is read by the code (`subtype` stands
for the rest of the descriptor). -/
structure AM_MEDIA_TYPE where
  majortype : GUID
  subtype : Nat
deriving DecidableEq, Repr

/-- A pin of a filter: its identity and the platform's answers to `QueryDirection`
and `EnumMediaTypes` (the result code, and the value delivered with it). -/
structure IPin where
  id : Nat
  QueryDirection : HRESULT × PIN_DIRECTION
  EnumMediaTypes : HRESULT × List AM_MEDIA_TYPE
deriving DecidableEq, Repr

/-- A filter: its identity, the result code of `EnumPins`, and the pins the
enumerator it hands out delivers, in the platform's order. -/
structure IBaseFilter where
  id : Nat
  EnumPins : HRESULT
  pins : List IPin
deriving DecidableEq, Repr

/-- A property bag: for a property name, the result code of `Read` and the string
it delivers.  A name without an entry is answered by `missing`. -/
structure IPropertyBag where
  entries : List (String × HRESULT × String)
  missing : HRESULT
deriving DecidableEq, Repr

/-- The answer of `IPropertyBag::Read` for a property name. -/
def IPropertyBag.Read (bag : IPropertyBag) (prop_name : String) : HRESULT × String :=
  match bag.entries.find? (fun e => e.1 == prop_name) with
  | some e => e.2
  | none => (bag.missing, "")

/-- A device moniker: the answers of `BindToStorage` (result code, and the property
bag it gives access to) and of `BindToObject` (result code and the filter pointer the
platform stores, null when `none`). -/
structure IMoniker where
  id : Nat
  BindToStorage : HRESULT
  props : IPropertyBag
  BindToObject : HRESULT × Option IBaseFilter
deriving DecidableEq, Repr

/-- A COM enumerator (`IEnumPins`, `IEnumMediaTypes`, `IEnumMoniker`): all its
items, and the items it has yet to deliver. -/
structure IEnum (α : Type) where
  items : List α
  rest : List α
deriving DecidableEq, Repr

/-- A new enumerator, positioned at its first item. -/
def IEnum.fresh {α : Type} (items : List α) : IEnum α := ⟨items, items⟩

/-- The call `Next(1, &item, NULL)`: result code, the item stored (null when `none`),
and the advanced enumerator. -/
def IEnum.Next {α : Type} (e : IEnum α) : HRESULT × Option α × IEnum α :=
  match e.rest with
  | [] => (S_FALSE, none, e)
  | x :: xs => (S_OK, some x, { e with rest := xs })

/-- The enumerator after a successful `Reset()`. -/
def IEnum.Reset {α : Type} (e : IEnum α) : IEnum α := { e with rest := e.items }

/-- Modelled from the spec: the deadline modes of `vp8encoderidl.h`, which is not among
the sources; the code names `kDeadlineRealtime` only ("encoding deadline =
real-time"). -/
inductive VP8Deadline where
  | kDeadlineRealtime
  | other (raw : Int)
deriving DecidableEq, Repr

/-- Modelled from the spec: the rate-control modes of `vp8encoderidl.h`, which is not
among the sources; the code names `kEndUsageCBR` only ("rate-control mode = constant
bitrate"). -/
inductive VP8EndUsage where
  | kEndUsageCBR
  | other (raw : Int)
deriving DecidableEq, Repr

/-- A logged platform call, with its arguments. -/
inductive Call where
  | CreateInstance (clsid : GUID)
  | SetFiltergraph
  | AddFilter (filter : IBaseFilter) (name : String)
  | QueryInterface_IVP8Encoder (filter : IBaseFilter)
  | SetDeadline (deadline : VP8Deadline)
  | SetEndUsage (usage : VP8EndUsage)
  | SetTargetBitrate (bitrate : Int)
  | ConnectDirect (pin_out : IPin) (pin_in : IPin) (media_type : Option AM_MEDIA_TYPE)
  | CreateClassEnumerator (category : GUID)
  | Reset
  | BindToObject (moniker : IMoniker)
deriving DecidableEq, Repr

/-- The platform's answers. -/
structure Platform where
  /-- Width of `size_t` in bits. -/
  size_t_bits : Nat
  /-- Result of `CreateInstance` for a class id. -/
  CreateInstance : GUID → HRESULT
  /-- Result of `ICaptureGraphBuilder2::SetFiltergraph`. -/
  SetFiltergraph : HRESULT
  /-- Result of `IGraphBuilder::AddFilter`. -/
  AddFilter : IBaseFilter → String → HRESULT
  /-- Result of `IGraphBuilder::ConnectDirect`. -/
  ConnectDirect : IPin → IPin → Option AM_MEDIA_TYPE → HRESULT
  /-- The filter a successful `CreateInstance(CLSID_VP8Encoder)` delivers. -/
  vp8_encoder : IBaseFilter
  /-- Whether a filter answers `QueryInterface` for `IVP8Encoder`. -/
  QueryInterface_IVP8Encoder : IBaseFilter → Bool
  /-- Result of `IVP8Encoder::SetDeadline`. -/
  SetDeadline : VP8Deadline → HRESULT
  /-- Result of `IVP8Encoder::SetEndUsage`. -/
  SetEndUsage : VP8EndUsage → HRESULT
  /-- Result of `IVP8Encoder::SetTargetBitrate`. -/
  SetTargetBitrate : Int → HRESULT
  /-- Result of `ICreateDevEnum::CreateClassEnumerator` for a category. -/
  CreateClassEnumerator : GUID → HRESULT
  /-- The monikers the class enumerator of a category delivers, in order. -/
  devices : GUID → List IMoniker
  /-- Result of `IEnumMoniker::Reset`. -/
  Reset : HRESULT

/-! ## Status codes

The enumerations are declared in `webm_encoder.h` and `webm_encoder_dshow.h`, which
are not among the sources, so their values are parameters. -/

/-- The enumerators of `WebmEncoder` the file names. -/
structure WebmEncoderCodes where
  kSuccess : Int
  kInitFailed : Int
  kNoVideoSource : Int
  kVideoEncoderError : Int
  kNoAudioSource : Int
  kNotImplemented : Int
  kInvalidArg : Int
deriving DecidableEq, Repr

/-- The enumerators the member functions of `WebmEncoderImpl` name unqualified. -/
structure WebmEncoderImplCodes where
  kSuccess : Int
  kCannotCreateGraph : Int
  kCannotAddFilter : Int
  kCannotCreateVpxEncoder : Int
  kCannotConfigureVpxEncoder : Int
  kVpxConfigureError : Int
  kVideoConnectError : Int
deriving DecidableEq, Repr

/-- The enumerators the member functions of `CaptureSourceLoader` name unqualified. -/
structure CaptureSourceLoaderCodes where
  kSuccess : Int
  kNoDeviceFound : Int
deriving DecidableEq, Repr

/-- All status codes. -/
structure Codes where
  enc : WebmEncoderCodes
  impl : WebmEncoderImplCodes
  loader : CaptureSourceLoaderCodes
deriving DecidableEq, Repr

/-- What the code relies on when it tests `if (status)`: success is zero, every
failure code is non-zero. -/
def Codes.WellFormed (c : Codes) : Prop :=
  c.enc.kSuccess = 0 ∧ c.impl.kSuccess = 0 ∧ c.loader.kSuccess = 0 ∧
  c.enc.kInitFailed ≠ 0 ∧ c.enc.kNoVideoSource ≠ 0 ∧ c.enc.kVideoEncoderError ≠ 0 ∧
  c.enc.kNoAudioSource ≠ 0 ∧ c.enc.kNotImplemented ≠ 0 ∧ c.enc.kInvalidArg ≠ 0 ∧
  c.impl.kCannotCreateGraph ≠ 0 ∧ c.impl.kCannotAddFilter ≠ 0 ∧
  c.impl.kCannotCreateVpxEncoder ≠ 0 ∧ c.impl.kCannotConfigureVpxEncoder ≠ 0 ∧
  c.impl.kVpxConfigureError ≠ 0 ∧ c.impl.kVideoConnectError ≠ 0 ∧
  c.loader.kNoDeviceFound ≠ 0

instance (c : Codes) : Decidable c.WellFormed := by
  unfold Codes.WellFormed; infer_instance

/-- One admissible numbering, for closed examples. -/
def sampleCodes : Codes where
  enc := ⟨0, -1, -2, -3, -4, -5, -6⟩
  impl := ⟨0, -200, -201, -202, -203, -204, -205⟩
  loader := ⟨0, -300⟩

/-- Filter name passed to `AddFilter` for the video source. -/
def kVideoSourceName : String := "VideoSource"

/-- Filter name passed to `AddFilter` for the audio source. -/
def kAudioSourceName : String := "AudioSource"

/-- Filter name passed to `AddFilter` for the VP8 encoder. -/
def kVpxEncoderName : String := "VP8Encoder"

/-- The fixed target bitrate. -/
def kVpxEncoderBitrate : Int := 500

/-- A C++ `int` after an arithmetic step: two's complement wrap-around to 32 bits. -/
def wrapInt32 (x : Int) : Int := (x + 2147483648) % 4294967296 - 2147483648

/-! ## PinInfo -/

/-- The class `PinInfo`: it holds the pin pointer it was constructed with. -/
structure PinInfo where
  pin_ : Option IPin
deriving DecidableEq, Repr

/-- The `for (;;)` loop of `PinInfo::HasMajorType`; `has_type` is the local of that
name. -/
def PinInfo.HasMajorType.loop (major_type : GUID) :
    Nat → IEnum AM_MEDIA_TYPE → Bool → Bool
  | 0, _, has_type => has_type
  | fuel + 1, mediatype_enum, has_type =>
    match mediatype_enum.Next with
    | (hr, ptr_media_type, mediatype_enum) =>
      if hr ≠ S_OK then has_type
      else
        let has_type :=
          match ptr_media_type with
          | some media_type => decide (media_type.majortype = major_type)
          | none => false
        if has_type then has_type
        else PinInfo.HasMajorType.loop major_type fuel mediatype_enum has_type

/-- The member function `PinInfo::HasMajorType`. -/
def PinInfo.HasMajorType (self : PinInfo) (major_type : GUID) : Bool :=
  match self.pin_ with
  | none => false
  | some pin =>
    let hr := pin.EnumMediaTypes.1
    if SUCCEEDED hr then
      let mediatype_enum := IEnum.fresh pin.EnumMediaTypes.2
      PinInfo.HasMajorType.loop major_type (mediatype_enum.rest.length + 1)
        mediatype_enum false
    else false

/-- The member function `PinInfo::IsAudio`. -/
def PinInfo.IsAudio (self : PinInfo) : Bool :=
  match self.pin_ with
  | none => false
  | some _ => self.HasMajorType GUID.MEDIATYPE_Audio

/-- The member function `PinInfo::IsVideo`. -/
def PinInfo.IsVideo (self : PinInfo) : Bool :=
  match self.pin_ with
  | none => false
  | some _ => self.HasMajorType GUID.MEDIATYPE_Video

/-- The member function `PinInfo::IsInput`. -/
def PinInfo.IsInput (self : PinInfo) : Bool :=
  match self.pin_ with
  | none => false
  | some pin =>
    decide (pin.QueryDirection.1 = S_OK) &&
      decide (pin.QueryDirection.2 = PIN_DIRECTION.PINDIR_INPUT)

/-- The member function `PinInfo::IsOutput`. -/
def PinInfo.IsOutput (self : PinInfo) : Bool :=
  match self.pin_ with
  | none => false
  | some pin =>
    decide (pin.QueryDirection.1 = S_OK) &&
      decide (pin.QueryDirection.2 = PIN_DIRECTION.PINDIR_OUTPUT)

/-! ## PinFinder -/

/-- The class `PinFinder`: its pin enumerator, null until `Init` succeeds. -/
structure PinFinder where
  pin_enum_ : Option (IEnum IPin)
deriving DecidableEq, Repr

/-- The member function `PinFinder::Init`.  Taking `&pin_enum_` releases the pointer
held before the call, so a failed `EnumPins` leaves it null. -/
def PinFinder.Init (c : Codes) (_self : PinFinder) (filter : Option IBaseFilter) :
    Int × PinFinder :=
  match filter with
  | none => (c.enc.kInvalidArg, _self)
  | some f =>
    let hr := f.EnumPins
    if FAILED hr then (c.enc.kInitFailed, { pin_enum_ := none })
    else (c.enc.kSuccess, { pin_enum_ := some (IEnum.fresh f.pins) })

/-- The `for (;;)` loop the four `Find...Pin` functions share; they differ in the
test `is_wanted` applied to `PinInfo pin_info(pin)` only.  The result is the pin
returned and the enumerator as the loop leaves it. -/
def PinFinder.FindLoop (is_wanted : PinInfo → Bool) (index : Int) :
    Nat → IEnum IPin → Int → Option IPin × IEnum IPin
  | 0, pin_enum, _ => (none, pin_enum)
  | fuel + 1, pin_enum, num_found =>
    match pin_enum.Next with
    | (hr, pin, pin_enum) =>
      if hr ≠ S_OK then (pin, pin_enum)
      else
        let pin_info : PinInfo := ⟨pin⟩
        if is_wanted pin_info then
          let num_found := wrapInt32 (num_found + 1)
          if num_found = wrapInt32 (index + 1) then (pin, pin_enum)
          else PinFinder.FindLoop is_wanted index fuel pin_enum num_found
        else PinFinder.FindLoop is_wanted index fuel pin_enum num_found

/-- A `Find...Pin` member function with the given test.  The function is `const`, yet
`Next` advances the enumerator the member points to; the finder is returned with the
enumerator where the search left it.  A null `pin_enum_` (no successful `Init`) would
be dereferenced by the code; no caller reaches that, and the model returns null. -/
def PinFinder.FindPin (is_wanted : PinInfo → Bool) (self : PinFinder) (index : Int) :
    Option IPin × PinFinder :=
  match self.pin_enum_ with
  | none => (none, self)
  | some pin_enum =>
    let r := PinFinder.FindLoop is_wanted index (pin_enum.rest.length + 1) pin_enum 0
    (r.1, { pin_enum_ := some r.2 })

/-- The member function `PinFinder::FindAudioInputPin`. -/
def PinFinder.FindAudioInputPin (self : PinFinder) (index : Int) :
    Option IPin × PinFinder :=
  PinFinder.FindPin (fun pin_info => pin_info.IsInput && pin_info.IsAudio) self index

/-- The member function `PinFinder::FindAudioOutputPin`. -/
def PinFinder.FindAudioOutputPin (self : PinFinder) (index : Int) :
    Option IPin × PinFinder :=
  PinFinder.FindPin (fun pin_info => pin_info.IsOutput && pin_info.IsAudio) self index

/-- The member function `PinFinder::FindVideoInputPin`. -/
def PinFinder.FindVideoInputPin (self : PinFinder) (index : Int) :
    Option IPin × PinFinder :=
  PinFinder.FindPin (fun pin_info => pin_info.IsInput && pin_info.IsVideo) self index

/-- The member function `PinFinder::FindVideoOutputPin`. -/
def PinFinder.FindVideoOutputPin (self : PinFinder) (index : Int) :
    Option IPin × PinFinder :=
  PinFinder.FindPin (fun pin_info => pin_info.IsOutput && pin_info.IsVideo) self index

/-! ## CaptureSourceLoader -/

/-- The member `sources_`.  Its declaration is in `webm_encoder_dshow.h`, which is not
among the sources; the code assigns through `sources_[i]` into an initially empty
container and reads `sources_.size()`, the interface of `std::map<int, std::wstring>`:
entries in increasing key order, one per key. -/
abbrev SourceMap := List (Int × String)

/-- The assignment `sources_[key] = name`: replaces the entry of `key`, or inserts
one at its place in key order. -/
def SourceMap.assign : SourceMap → Int → String → SourceMap
  | [], key, name => [(key, name)]
  | (k, v) :: rest, key, name =>
    if key < k then (key, name) :: (k, v) :: rest
    else if key = k then (key, name) :: rest
    else (k, v) :: SourceMap.assign rest key name

/-- The class `CaptureSourceLoader`. -/
structure CaptureSourceLoader where
  source_type_ : GUID
  source_enum_ : Option (IEnum IMoniker)
  sources_ : SourceMap
deriving DecidableEq, Repr

/-- The constructor `CaptureSourceLoader::CaptureSourceLoader`. -/
def CaptureSourceLoader.new : CaptureSourceLoader :=
  { source_type_ := GUID.GUID_NULL, source_enum_ := none, sources_ := [] }

/-- The member function `CaptureSourceLoader::GetStringProperty`. -/
def CaptureSourceLoader.GetStringProperty (prop_bag : IPropertyBag)
    (prop_name : String) : String :=
  let r := prop_bag.Read prop_name
  if SUCCEEDED r.1 then r.2 else ""

/-- The property name `kFriendlyName`. -/
def kFriendlyName : String := "FriendlyName"

/-- The `for (;; ++i)` loop of `CaptureSourceLoader::FindAllSources`: the enumerator
and `sources_` as the loop leaves them.  A `continue` runs `++i` as well. -/
def CaptureSourceLoader.FindAllSources.loop :
    Nat → IEnum IMoniker → Int → SourceMap → IEnum IMoniker × SourceMap
  | 0, source_enum, _, sources => (source_enum, sources)
  | fuel + 1, source_enum, i, sources =>
    match source_enum.Next with
    | (_, none, source_enum) => (source_enum, sources)
    | (hr, some source_moniker, source_enum) =>
      if FAILED hr || decide (hr = S_FALSE) then (source_enum, sources)
      else
        let hr := source_moniker.BindToStorage
        if FAILED hr || decide (hr = S_FALSE) then
          CaptureSourceLoader.FindAllSources.loop fuel source_enum (wrapInt32 (i + 1))
            sources
        else
          let name :=
            CaptureSourceLoader.GetStringProperty source_moniker.props kFriendlyName
          if name = "" then
            CaptureSourceLoader.FindAllSources.loop fuel source_enum (wrapInt32 (i + 1))
              sources
          else
            CaptureSourceLoader.FindAllSources.loop fuel source_enum (wrapInt32 (i + 1))
              (sources.assign i name)

/-- The member function `CaptureSourceLoader::FindAllSources`: status, the loader and
the call log afterwards.  Taking `&source_enum_` releases the pointer held before the
call, so a failed `CreateClassEnumerator` leaves it null. -/
def CaptureSourceLoader.FindAllSources (c : Codes) (P : Platform)
    (self : CaptureSourceLoader) (calls : List Call) :
    Int × CaptureSourceLoader × List Call :=
  let hr := P.CreateInstance GUID.CLSID_SystemDeviceEnum
  let calls := calls ++ [Call.CreateInstance GUID.CLSID_SystemDeviceEnum]
  if FAILED hr then (c.loader.kNoDeviceFound, self, calls)
  else
    let hr := P.CreateClassEnumerator self.source_type_
    let calls := calls ++ [Call.CreateClassEnumerator self.source_type_]
    if FAILED hr || decide (hr = S_FALSE) then
      (c.loader.kNoDeviceFound, { self with source_enum_ := none }, calls)
    else
      let source_enum := IEnum.fresh (P.devices self.source_type_)
      let r := CaptureSourceLoader.FindAllSources.loop (source_enum.rest.length + 1)
        source_enum 0 self.sources_
      let self := { self with source_enum_ := some r.1, sources_ := r.2 }
      if self.sources_.length = 0 then (c.loader.kNoDeviceFound, self, calls)
      else (c.loader.kSuccess, self, calls)

/-- The member function `CaptureSourceLoader::Init`. -/
def CaptureSourceLoader.Init (c : Codes) (P : Platform) (self : CaptureSourceLoader)
    (source_type : GUID) (calls : List Call) : Int × CaptureSourceLoader × List Call :=
  if source_type ≠ GUID.CLSID_AudioInputDeviceCategory ∧
      source_type ≠ GUID.CLSID_VideoInputDeviceCategory then
    (c.enc.kInvalidArg, self, calls)
  else
    CaptureSourceLoader.FindAllSources c P { self with source_type_ := source_type } calls

/-- The `for (int i = 0; i <= index; ++i)` loop of `CaptureSourceLoader::GetSource`:
whether the loop ran to its end (`false` is the `return NULL` inside it), the local
`source_moniker`, and the enumerator. -/
def CaptureSourceLoader.GetSource.loop (index : Int) :
    Nat → IEnum IMoniker → Int → Option IMoniker → Bool × Option IMoniker × IEnum IMoniker
  | 0, source_enum, _, source_moniker => (false, source_moniker, source_enum)
  | fuel + 1, source_enum, i, source_moniker =>
    if i ≤ index then
      match source_enum.Next with
      | (_, none, source_enum) => (false, none, source_enum)
      | (hr, some moniker, source_enum) =>
        if FAILED hr || decide (hr = S_FALSE) then (false, some moniker, source_enum)
        else
          CaptureSourceLoader.GetSource.loop index fuel source_enum (wrapInt32 (i + 1))
            (some moniker)
    else (true, source_moniker, source_enum)

/-- The conversion `static_cast<size_t>(index)`. -/
def static_cast_size_t (P : Platform) (index : Int) : Nat :=
  (index % (2 : Int) ^ P.size_t_bits).toNat

/-- The member function `CaptureSourceLoader::GetSource`: the filter returned (null
when `none`), the loader and the call log afterwards.  Past the size test
`source_enum_` and `source_moniker` are dereferenced; where they would be null the
model returns null. -/
def CaptureSourceLoader.GetSource (P : Platform) (self : CaptureSourceLoader)
    (index : Int) (calls : List Call) :
    Option IBaseFilter × CaptureSourceLoader × List Call :=
  if static_cast_size_t P index ≥ self.sources_.length then (none, self, calls)
  else
    match self.source_enum_ with
    | none => (none, self, calls)
    | some source_enum =>
      let hr := P.Reset
      let calls := calls ++ [Call.Reset]
      if FAILED hr then (none, self, calls)
      else
        let source_enum := source_enum.Reset
        let r := CaptureSourceLoader.GetSource.loop index (source_enum.rest.length + 1)
          source_enum 0 none
        let self := { self with source_enum_ := some r.2.2 }
        if r.1 = false then (none, self, calls)
        else
          match r.2.1 with
          | none => (none, self, calls)
          | some source_moniker =>
            (source_moniker.BindToObject.2, self,
              calls ++ [Call.BindToObject source_moniker])

/-! ## WebmEncoderImpl -/

/-- The class `WebmEncoderImpl`: its smart-pointer members (for the two graph
builders, whether the pointer is non-null) and the log of platform calls issued. -/
structure WebmEncoderImpl where
  graph_builder_ : Bool
  capture_graph_builder_ : Bool
  video_source_ : Option IBaseFilter
  vpx_encoder_ : Option IBaseFilter
  audio_source_ : Option IBaseFilter
  calls : List Call
deriving DecidableEq, Repr

/-- The result code `E_POINTER`, which `operator->` of a null `_com_ptr_t` raises. -/
def E_POINTER : HRESULT := -2147467261

/-- How a call of a member function of `WebmEncoderImpl` ends: it returns a status, or
a `_com_error` with the given result code leaves it. -/
inductive Outcome where
  | returned (status : Int)
  | raised (error : HRESULT)
deriving DecidableEq, Repr

/-- The object after `WebmEncoderImpl::WebmEncoderImpl`: every pointer null, no call
issued. -/
def WebmEncoderImpl.new : WebmEncoderImpl :=
  { graph_builder_ := false, capture_graph_builder_ := false, video_source_ := none,
    vpx_encoder_ := none, audio_source_ := none, calls := [] }

/-- The member function `WebmEncoderImpl::CreateGraph`. -/
def WebmEncoderImpl.CreateGraph (c : Codes) (P : Platform) (self : WebmEncoderImpl) :
    Outcome × WebmEncoderImpl :=
  let hr := P.CreateInstance GUID.CLSID_FilterGraph
  let self := { self with
    graph_builder_ := !FAILED hr
    calls := self.calls ++ [Call.CreateInstance GUID.CLSID_FilterGraph] }
  if FAILED hr then (Outcome.returned c.impl.kCannotCreateGraph, self)
  else
    let hr := P.CreateInstance GUID.CLSID_CaptureGraphBuilder2
    let self := { self with
      capture_graph_builder_ := !FAILED hr
      calls := self.calls ++ [Call.CreateInstance GUID.CLSID_CaptureGraphBuilder2] }
    if FAILED hr then (Outcome.returned c.impl.kCannotCreateGraph, self)
    else
      let hr := P.SetFiltergraph
      let self := { self with calls := self.calls ++ [Call.SetFiltergraph] }
      if FAILED hr then (Outcome.returned c.impl.kCannotCreateGraph, self)
      else (Outcome.returned c.impl.kSuccess, self)

/-- The member function `WebmEncoderImpl::CreateVideoSource`.  The `DBGLOG` loop over
the source names only prints.  `graph_builder_->AddFilter` raises on a null
`graph_builder_`. -/
def WebmEncoderImpl.CreateVideoSource (c : Codes) (P : Platform) (video_src : String)
    (self : WebmEncoderImpl) : Outcome × WebmEncoderImpl :=
  if video_src ≠ "" then (Outcome.returned c.enc.kNotImplemented, self)
  else
    let loader := CaptureSourceLoader.new
    match loader.Init c P GUID.CLSID_VideoInputDeviceCategory self.calls with
    | (status, loader, calls) =>
      let self := { self with calls := calls }
      if status ≠ 0 then (Outcome.returned c.enc.kNoVideoSource, self)
      else
        match loader.GetSource P 0 self.calls with
        | (source, _, calls) =>
          let self := { self with video_source_ := source, calls := calls }
          match self.video_source_ with
          | none => (Outcome.returned c.enc.kNoVideoSource, self)
          | some video_source =>
            if !self.graph_builder_ then (Outcome.raised E_POINTER, self)
            else
              let hr := P.AddFilter video_source kVideoSourceName
              let self := { self with
                calls := self.calls ++ [Call.AddFilter video_source kVideoSourceName] }
              if FAILED hr then (Outcome.returned c.impl.kCannotAddFilter, self)
              else (Outcome.returned c.impl.kSuccess, self)

/-- The member function `WebmEncoderImpl::CreateVpxEncoder`.
`graph_builder_->AddFilter` raises on a null `graph_builder_`. -/
def WebmEncoderImpl.CreateVpxEncoder (c : Codes) (P : Platform) (self : WebmEncoderImpl) :
    Outcome × WebmEncoderImpl :=
  let hr := P.CreateInstance GUID.CLSID_VP8Encoder
  let self := { self with calls := self.calls ++ [Call.CreateInstance GUID.CLSID_VP8Encoder] }
  if FAILED hr then
    (Outcome.returned c.impl.kCannotCreateVpxEncoder, { self with vpx_encoder_ := none })
  else
    let vpx_encoder := P.vp8_encoder
    let self := { self with vpx_encoder_ := some vpx_encoder }
    if !self.graph_builder_ then (Outcome.raised E_POINTER, self)
    else
      let hr := P.AddFilter vpx_encoder kVpxEncoderName
      let self := { self with
        calls := self.calls ++ [Call.AddFilter vpx_encoder kVpxEncoderName] }
      if FAILED hr then (Outcome.returned c.impl.kCannotAddFilter, self)
      else
        let vp8_config := P.QueryInterface_IVP8Encoder vpx_encoder
        let self := { self with
          calls := self.calls ++ [Call.QueryInterface_IVP8Encoder vpx_encoder] }
        if !vp8_config then (Outcome.returned c.impl.kCannotConfigureVpxEncoder, self)
        else
          let hr := P.SetDeadline VP8Deadline.kDeadlineRealtime
          let self := { self with
            calls := self.calls ++ [Call.SetDeadline VP8Deadline.kDeadlineRealtime] }
          if FAILED hr then (Outcome.returned c.impl.kVpxConfigureError, self)
          else
            let hr := P.SetEndUsage VP8EndUsage.kEndUsageCBR
            let self := { self with
              calls := self.calls ++ [Call.SetEndUsage VP8EndUsage.kEndUsageCBR] }
            if FAILED hr then (Outcome.returned c.impl.kVpxConfigureError, self)
            else
              let hr := P.SetTargetBitrate kVpxEncoderBitrate
              let self := { self with
                calls := self.calls ++ [Call.SetTargetBitrate kVpxEncoderBitrate] }
              if FAILED hr then (Outcome.returned c.impl.kVpxConfigureError, self)
              else (Outcome.returned c.impl.kSuccess, self)

/-- The member function `WebmEncoderImpl::ConnectVideoSourceToVpxEncoder`.  The third
argument of `ConnectDirect` is `NULL`: no media type is imposed.
`graph_builder_->ConnectDirect` raises on a null `graph_builder_`. -/
def WebmEncoderImpl.ConnectVideoSourceToVpxEncoder (c : Codes) (P : Platform)
    (self : WebmEncoderImpl) : Outcome × WebmEncoderImpl :=
  let pin_finder : PinFinder := { pin_enum_ := none }
  match pin_finder.Init c self.video_source_ with
  | (status, pin_finder) =>
    if status ≠ 0 then (Outcome.returned c.impl.kVideoConnectError, self)
    else
      match pin_finder.FindVideoOutputPin 0 with
      | (none, _) => (Outcome.returned c.impl.kVideoConnectError, self)
      | (some video_src_pin, pin_finder) =>
        match pin_finder.Init c self.vpx_encoder_ with
        | (status, pin_finder) =>
          if status ≠ 0 then (Outcome.returned c.impl.kVideoConnectError, self)
          else
            match pin_finder.FindVideoInputPin 0 with
            | (none, _) => (Outcome.returned c.impl.kVideoConnectError, self)
            | (some vpx_input_pin, _) =>
              if !self.graph_builder_ then (Outcome.raised E_POINTER, self)
              else
                let hr := P.ConnectDirect video_src_pin vpx_input_pin none
                let self := { self with
                  calls := self.calls ++
                    [Call.ConnectDirect video_src_pin vpx_input_pin none] }
                if FAILED hr then (Outcome.returned c.impl.kVideoConnectError, self)
                else (Outcome.returned c.impl.kSuccess, self)

/-- The member function `WebmEncoderImpl::CreateAudioSource`.  The `DBGLOG` loop over
the source names only prints.  `graph_builder_->AddFilter` raises on a null
`graph_builder_`. -/
def WebmEncoderImpl.CreateAudioSource (c : Codes) (P : Platform) (audio_src : String)
    (self : WebmEncoderImpl) : Outcome × WebmEncoderImpl :=
  if audio_src ≠ "" then (Outcome.returned c.enc.kNotImplemented, self)
  else
    let pin_finder : PinFinder := { pin_enum_ := none }
    match pin_finder.Init c self.video_source_ with
    | (status, pin_finder) =>
      if status ≠ 0 then (Outcome.returned c.enc.kInitFailed, self)
      else
        if (pin_finder.FindAudioOutputPin 0).1.isSome then
          (Outcome.returned c.impl.kSuccess, { self with audio_source_ := self.video_source_ })
        else
          let loader := CaptureSourceLoader.new
          match loader.Init c P GUID.CLSID_AudioInputDeviceCategory self.calls with
          | (status, loader, calls) =>
            let self := { self with calls := calls }
            if status ≠ 0 then (Outcome.returned c.enc.kNoAudioSource, self)
            else
              match loader.GetSource P 0 self.calls with
              | (source, _, calls) =>
                let self := { self with audio_source_ := source, calls := calls }
                match self.audio_source_ with
                | none => (Outcome.returned c.enc.kNoAudioSource, self)
                | some audio_source =>
                  if !self.graph_builder_ then (Outcome.raised E_POINTER, self)
                  else
                    let hr := P.AddFilter audio_source kAudioSourceName
                    let self := { self with
                      calls := self.calls ++ [Call.AddFilter audio_source kAudioSourceName] }
                    if FAILED hr then (Outcome.returned c.impl.kCannotAddFilter, self)
                    else (Outcome.returned c.impl.kSuccess, self)

/-- The five member functions `WebmEncoderImpl::Init` calls, as transformers of an
object state that end with an outcome. -/
structure BuildSteps (σ : Type) where
  CreateGraph : σ → Outcome × σ
  CreateVideoSource : String → σ → Outcome × σ
  CreateVpxEncoder : σ → Outcome × σ
  ConnectVideoSourceToVpxEncoder : σ → Outcome × σ
  CreateAudioSource : String → σ → Outcome × σ

/-- The body of `WebmEncoderImpl::Init`, over the member functions it calls.
`video_src` and `audio_src` are default-constructed (empty) strings;
`out_file_name` is not used by the body.  `Init` has no handler, so an error raised
in a step leaves `Init` at once. -/
def WebmEncoderImpl.InitWith {σ : Type} (c : Codes) (m : BuildSteps σ)
    (_out_file_name : String) (self : σ) : Outcome × σ :=
  match m.CreateGraph self with
  | (Outcome.raised error, self) => (Outcome.raised error, self)
  | (Outcome.returned status, self) =>
    if status ≠ 0 then (Outcome.returned c.enc.kInitFailed, self)
    else
      let video_src : String := ""
      match m.CreateVideoSource video_src self with
      | (Outcome.raised error, self) => (Outcome.raised error, self)
      | (Outcome.returned status, self) =>
        if status ≠ 0 then (Outcome.returned c.enc.kNoVideoSource, self)
        else
          match m.CreateVpxEncoder self with
          | (Outcome.raised error, self) => (Outcome.raised error, self)
          | (Outcome.returned status, self) =>
            if status ≠ 0 then (Outcome.returned c.enc.kVideoEncoderError, self)
            else
              match m.ConnectVideoSourceToVpxEncoder self with
              | (Outcome.raised error, self) => (Outcome.raised error, self)
              | (Outcome.returned status, self) =>
                if status ≠ 0 then (Outcome.returned c.enc.kVideoEncoderError, self)
                else
                  let audio_src : String := ""
                  match m.CreateAudioSource audio_src self with
                  | (Outcome.raised error, self) => (Outcome.raised error, self)
                  | (Outcome.returned status, self) =>
                    if status ≠ 0 then (Outcome.returned c.enc.kNoAudioSource, self)
                    else (Outcome.returned c.impl.kSuccess, self)

/-- The member functions of `WebmEncoderImpl` on a platform. -/
def WebmEncoderImpl.steps (c : Codes) (P : Platform) : BuildSteps WebmEncoderImpl where
  CreateGraph := WebmEncoderImpl.CreateGraph c P
  CreateVideoSource := WebmEncoderImpl.CreateVideoSource c P
  CreateVpxEncoder := WebmEncoderImpl.CreateVpxEncoder c P
  ConnectVideoSourceToVpxEncoder := WebmEncoderImpl.ConnectVideoSourceToVpxEncoder c P
  CreateAudioSource := WebmEncoderImpl.CreateAudioSource c P

/-- The member function `WebmEncoderImpl::Init`. -/
def WebmEncoderImpl.Init (c : Codes) (P : Platform) (out_file_name : String)
    (self : WebmEncoderImpl) : Outcome × WebmEncoderImpl :=
  WebmEncoderImpl.InitWith c (WebmEncoderImpl.steps c P) out_file_name self

/-! ## Concrete platforms for closed examples -/

/-- A pin with the given identity, direction and single major type, answering every
query with `S_OK`. -/
def demoPin (id : Nat) (direction : PIN_DIRECTION) (major : GUID) : IPin :=
  { id := id, QueryDirection := (S_OK, direction), EnumMediaTypes := (S_OK, [⟨major, 0⟩]) }

/-- A camera with one video output pin. -/
def demoCamera : IBaseFilter :=
  { id := 1, EnumPins := S_OK, pins := [demoPin 10 PIN_DIRECTION.PINDIR_OUTPUT GUID.MEDIATYPE_Video] }

/-- A camera with a video output pin and an audio output pin. -/
def demoCameraWithMic : IBaseFilter :=
  { id := 2, EnumPins := S_OK,
    pins := [demoPin 20 PIN_DIRECTION.PINDIR_OUTPUT GUID.MEDIATYPE_Video,
             demoPin 21 PIN_DIRECTION.PINDIR_OUTPUT GUID.MEDIATYPE_Audio] }

/-- A microphone with one audio output pin. -/
def demoMicrophone : IBaseFilter :=
  { id := 3, EnumPins := S_OK, pins := [demoPin 30 PIN_DIRECTION.PINDIR_OUTPUT GUID.MEDIATYPE_Audio] }

/-- A VP8 encoder filter: a video input pin and a video output pin. -/
def demoEncoder : IBaseFilter :=
  { id := 4, EnumPins := S_OK,
    pins := [demoPin 40 PIN_DIRECTION.PINDIR_INPUT GUID.MEDIATYPE_Video,
             demoPin 41 PIN_DIRECTION.PINDIR_OUTPUT GUID.MEDIATYPE_Video] }

/-- A filter with an audio input pin, a video input pin, a video output pin and an
audio output pin, in that order. -/
def demoFourPinFilter : IBaseFilter :=
  { id := 5, EnumPins := S_OK,
    pins := [demoPin 50 PIN_DIRECTION.PINDIR_INPUT GUID.MEDIATYPE_Audio,
             demoPin 51 PIN_DIRECTION.PINDIR_INPUT GUID.MEDIATYPE_Video,
             demoPin 52 PIN_DIRECTION.PINDIR_OUTPUT GUID.MEDIATYPE_Video,
             demoPin 53 PIN_DIRECTION.PINDIR_OUTPUT GUID.MEDIATYPE_Audio] }

/-- A device with a property bag whose `FriendlyName` is `name`, binding to
`filter`. -/
def namedDevice (id : Nat) (name : String) (filter : IBaseFilter) : IMoniker :=
  { id := id, BindToStorage := S_OK, props := ⟨[("FriendlyName", S_OK, name)], -2147024809⟩,
    BindToObject := (S_OK, some filter) }

/-- A device whose property bag has no `FriendlyName`, binding to `filter`. -/
def unnamedDevice (id : Nat) (filter : IBaseFilter) : IMoniker :=
  { id := id, BindToStorage := S_OK, props := ⟨[], -2147024809⟩,
    BindToObject := (S_OK, some filter) }

/-- A platform on which every call succeeds, with the given video and audio capture
devices. -/
def demoPlatform (video audio : List IMoniker) : Platform where
  size_t_bits := 32
  CreateInstance := fun _ => S_OK
  SetFiltergraph := S_OK
  AddFilter := fun _ _ => S_OK
  ConnectDirect := fun _ _ _ => S_OK
  vp8_encoder := demoEncoder
  QueryInterface_IVP8Encoder := fun _ => true
  SetDeadline := fun _ => S_OK
  SetEndUsage := fun _ => S_OK
  SetTargetBitrate := fun _ => S_OK
  CreateClassEnumerator := fun _ => S_OK
  devices := fun category =>
    if category = GUID.CLSID_VideoInputDeviceCategory then video
    else if category = GUID.CLSID_AudioInputDeviceCategory then audio
    else []
  Reset := S_OK

/-- The result code `E_FAIL`. -/
def E_FAIL : HRESULT := -2147467259

/-- A platform without a registered VP8 encoder: `CreateInstance(CLSID_VP8Encoder)`
fails, every other call succeeds.  One camera. -/
def platformWithoutEncoder : Platform :=
  { demoPlatform [namedDevice 100 "Cam A" demoCamera] [] with
    CreateInstance := fun clsid => if clsid = GUID.CLSID_VP8Encoder then E_FAIL else S_OK }

/-- A platform whose graph rejects every direct connection; every other call
succeeds.  One camera. -/
def platformRejectingConnection : Platform :=
  { demoPlatform [namedDevice 100 "Cam A" demoCamera] [] with
    ConnectDirect := fun _ _ _ => E_FAIL }

/-- A platform whose encoder rejects `SetEndUsage`; every other call succeeds. -/
def platformRejectingEndUsage : Platform :=
  { demoPlatform [namedDevice 100 "Cam A" demoCamera] [] with
    SetEndUsage := fun _ => E_FAIL }

/-- The object after `CreateGraph` and `CreateVideoSource` on `platformRejectingEndUsage`:
the graph is created and holds the camera. -/
def demoBuiltGraph : WebmEncoderImpl :=
  (WebmEncoderImpl.CreateVideoSource sampleCodes platformRejectingEndUsage ""
    (WebmEncoderImpl.CreateGraph sampleCodes platformRejectingEndUsage
      WebmEncoderImpl.new).2).2

/-- A platform with two named cameras, "Cam A" and "Cam B". -/
def twoCameraPlatform : Platform :=
  demoPlatform [namedDevice 100 "Cam A" demoCamera,
    namedDevice 101 "Cam B" demoCameraWithMic] []

/-- A platform whose video enumeration is a nameless device followed by "Cam B". -/
def platformWithNamelessDevice : Platform :=
  demoPlatform [unnamedDevice 100 demoCameraWithMic, namedDevice 101 "Cam B" demoCamera] []

/-- The loader after `Init` for the video category on `platformWithNamelessDevice`. -/
def loaderWithNamelessDevice : CaptureSourceLoader :=
  (CaptureSourceLoader.Init sampleCodes platformWithNamelessDevice CaptureSourceLoader.new
    GUID.CLSID_VideoInputDeviceCategory []).2.1

/-! ## Specification-side definitions -/

/-- The five construction steps of `Init`, as labels of an invocation trace. -/
inductive Step where
  | CreateGraph
  | CreateVideoSource
  | CreateVpxEncoder
  | ConnectVideoSourceToVpxEncoder
  | CreateAudioSource
deriving DecidableEq, Repr

/-- The steps `m` with an invocation trace beside the object state: each step, when
invoked, does what it does in `m` and appends its label. -/
def BuildSteps.traced {σ : Type} (m : BuildSteps σ) : BuildSteps (σ × List Step) where
  CreateGraph := fun s =>
    ((m.CreateGraph s.1).1, (m.CreateGraph s.1).2, s.2 ++ [Step.CreateGraph])
  CreateVideoSource := fun video_src s =>
    ((m.CreateVideoSource video_src s.1).1, (m.CreateVideoSource video_src s.1).2,
      s.2 ++ [Step.CreateVideoSource])
  CreateVpxEncoder := fun s =>
    ((m.CreateVpxEncoder s.1).1, (m.CreateVpxEncoder s.1).2, s.2 ++ [Step.CreateVpxEncoder])
  ConnectVideoSourceToVpxEncoder := fun s =>
    ((m.ConnectVideoSourceToVpxEncoder s.1).1, (m.ConnectVideoSourceToVpxEncoder s.1).2,
      s.2 ++ [Step.ConnectVideoSourceToVpxEncoder])
  CreateAudioSource := fun audio_src s =>
    ((m.CreateAudioSource audio_src s.1).1, (m.CreateAudioSource audio_src s.1).2,
      s.2 ++ [Step.CreateAudioSource])

/-- The object as `Init` hands it to `CreateVpxEncoder`. -/
def WebmEncoderImpl.beforeCreateVpxEncoder (c : Codes) (P : Platform)
    (self : WebmEncoderImpl) : WebmEncoderImpl :=
  (WebmEncoderImpl.CreateVideoSource c P "" (WebmEncoderImpl.CreateGraph c P self).2).2

/-- The object as `Init` hands it to `ConnectVideoSourceToVpxEncoder`. -/
def WebmEncoderImpl.beforeConnect (c : Codes) (P : Platform)
    (self : WebmEncoderImpl) : WebmEncoderImpl :=
  (WebmEncoderImpl.CreateVpxEncoder c P (WebmEncoderImpl.beforeCreateVpxEncoder c P self)).2

/-- An outcome that `Init` tests as a failure of the step: a returned non-zero
status. -/
def Outcome.ReturnedNonZero : Outcome → Prop
  | Outcome.returned status => status ≠ 0
  | Outcome.raised _ => False

instance (o : Outcome) : Decidable o.ReturnedNonZero := by
  cases o <;> unfold Outcome.ReturnedNonZero <;> infer_instance

/-- A run of `Init` that fails in `CreateVpxEncoder`: the two steps before it return
zero, and it returns non-zero. -/
def FailsInCreateVpxEncoder (c : Codes) (P : Platform) (self : WebmEncoderImpl) : Prop :=
  (WebmEncoderImpl.CreateGraph c P self).1 = Outcome.returned 0 ∧
  (WebmEncoderImpl.CreateVideoSource c P "" (WebmEncoderImpl.CreateGraph c P self).2).1 =
    Outcome.returned 0 ∧
  (WebmEncoderImpl.CreateVpxEncoder c P
    (WebmEncoderImpl.beforeCreateVpxEncoder c P self)).1.ReturnedNonZero

/-- A run of `Init` that fails in `ConnectVideoSourceToVpxEncoder`: the three steps
before it return zero, and it returns non-zero. -/
def FailsInConnect (c : Codes) (P : Platform) (self : WebmEncoderImpl) : Prop :=
  (WebmEncoderImpl.CreateGraph c P self).1 = Outcome.returned 0 ∧
  (WebmEncoderImpl.CreateVideoSource c P "" (WebmEncoderImpl.CreateGraph c P self).2).1 =
    Outcome.returned 0 ∧
  (WebmEncoderImpl.CreateVpxEncoder c P
    (WebmEncoderImpl.beforeCreateVpxEncoder c P self)).1 = Outcome.returned 0 ∧
  (WebmEncoderImpl.ConnectVideoSourceToVpxEncoder c P
    (WebmEncoderImpl.beforeConnect c P self)).1.ReturnedNonZero

instance (c : Codes) (P : Platform) (self : WebmEncoderImpl) :
    Decidable (FailsInCreateVpxEncoder c P self) := by
  unfold FailsInCreateVpxEncoder; infer_instance

instance (c : Codes) (P : Platform) (self : WebmEncoderImpl) :
    Decidable (FailsInConnect c P self) := by
  unfold FailsInConnect; infer_instance

/-- A pin of the given direction, by the platform's answer: `QueryDirection` answers
`S_OK` and delivers that direction. -/
def IPin.HasDirection (p : IPin) (direction : PIN_DIRECTION) : Prop :=
  p.QueryDirection.1 = S_OK ∧ p.QueryDirection.2 = direction

/-- A pin of the given media kind, by the platform's answer: `EnumMediaTypes` succeeds
and some media type it delivers has that major type. -/
def IPin.Advertises (p : IPin) (major : GUID) : Prop :=
  SUCCEEDED p.EnumMediaTypes.1 = true ∧
    ∃ media_type ∈ p.EnumMediaTypes.2, media_type.majortype = major

instance (p : IPin) (direction : PIN_DIRECTION) : Decidable (p.HasDirection direction) := by
  unfold IPin.HasDirection; infer_instance

instance (p : IPin) (major : GUID) : Decidable (p.Advertises major) := by
  unfold IPin.Advertises; infer_instance

/-- The pins of a filter that have the given direction and media kind, in the
platform's enumeration order. -/
def matchingPins (f : IBaseFilter) (direction : PIN_DIRECTION) (major : GUID) : List IPin :=
  f.pins.filter (fun p => decide (p.HasDirection direction ∧ p.Advertises major))

/-- A device that can report a human-readable name: it exposes a property bag
(`BindToStorage` neither fails nor answers `S_FALSE`) whose `FriendlyName` reads
successfully as a non-empty string. -/
def IMoniker.hasFriendlyName (m : IMoniker) : Bool :=
  !FAILED m.BindToStorage && decide (m.BindToStorage ≠ S_FALSE) &&
    SUCCEEDED (m.props.Read kFriendlyName).1 && decide ((m.props.Read kFriendlyName).2 ≠ "")

/-- The devices of an enumeration that can report a name, in enumeration order, each
with its position in the enumeration and its name. -/
def namedSources (devices : List IMoniker) : SourceMap :=
  (devices.enum.filter (fun e => e.2.hasFriendlyName)).map
    (fun e => ((e.1 : Int), (e.2.props.Read kFriendlyName).2))

/-! ## Lemmas about the loops and the member functions -/

/-- A value in the range of `int` is not changed by the wrap-around. -/
theorem wrapInt32_of_range (x : Int) (h1 : -2147483648 ≤ x) (h2 : x < 2147483648) :
    wrapInt32 x = x := by
  unfold wrapInt32; omega

/-- The loop of `HasMajorType` with a budget above the number of media types left:
whether any of them has the major type. -/
theorem HasMajorType_loop_eq_any (major_type : GUID) (items : List AM_MEDIA_TYPE) :
    ∀ (rest : List AM_MEDIA_TYPE) (fuel : Nat), rest.length < fuel →
      PinInfo.HasMajorType.loop major_type fuel ⟨items, rest⟩ false =
        rest.any (fun media_type => decide (media_type.majortype = major_type)) := by
  intro rest
  induction rest with
  | nil =>
    intro fuel hfuel
    cases fuel with
    | zero => omega
    | succ n => simp [PinInfo.HasMajorType.loop, IEnum.Next, S_OK, S_FALSE]
  | cons mt rs ih =>
    intro fuel hfuel
    cases fuel with
    | zero => simp at hfuel
    | succ n =>
      have hn : rs.length < n := by simpa using hfuel
      by_cases hmt : mt.majortype = major_type
      · simp [PinInfo.HasMajorType.loop, IEnum.Next, S_OK, hmt]
      · simp [PinInfo.HasMajorType.loop, IEnum.Next, S_OK, hmt, ih n hn]

/-- `HasMajorType` on a non-null pin, in closed form. -/
theorem HasMajorType_eq (p : IPin) (major_type : GUID) :
    (PinInfo.mk (some p)).HasMajorType major_type =
      (SUCCEEDED p.EnumMediaTypes.1 &&
        p.EnumMediaTypes.2.any (fun media_type => decide (media_type.majortype = major_type))) := by
  unfold PinInfo.HasMajorType
  by_cases h : SUCCEEDED p.EnumMediaTypes.1 = true
  · simp [h, IEnum.fresh, HasMajorType_loop_eq_any]
  · simp [h]

/-- The loop of `Find...Pin` with a budget above the number of pins left, `num_found`
matches so far and no overflow ahead: the pin returned is the wanted pin `index -
num_found` places further on. -/
theorem FindLoop_eq_getElem (is_wanted : PinInfo → Bool) (index : Int) (items : List IPin)
    (hi : index < 2147483648) :
    ∀ (rest : List IPin) (fuel : Nat) (num_found : Int), rest.length < fuel →
      0 ≤ num_found → num_found ≤ index → num_found + rest.length < 2147483648 →
      (PinFinder.FindLoop is_wanted index fuel ⟨items, rest⟩ num_found).1 =
        (rest.filter (fun p => is_wanted ⟨some p⟩))[(index - num_found).toNat]? := by
  intro rest
  induction rest with
  | nil =>
    intro fuel n hfuel _ _ _
    cases fuel with
    | zero => omega
    | succ k => simp [PinFinder.FindLoop, IEnum.Next, S_OK, S_FALSE]
  | cons p rs ih =>
    intro fuel n hfuel h0 hn hlen
    cases fuel with
    | zero => simp at hfuel
    | succ k =>
      have hk : rs.length < k := by simpa using hfuel
      simp only [List.length_cons, Nat.cast_add, Nat.cast_one] at hlen
      by_cases hw : is_wanted ⟨some p⟩ = true
      · have hn1 : wrapInt32 (n + 1) = n + 1 := wrapInt32_of_range _ (by omega) (by omega)
        by_cases heq : n = index
        · subst heq
          have : wrapInt32 (n + 1) = n + 1 := hn1
          simp [PinFinder.FindLoop, IEnum.Next, S_OK, hw, List.filter_cons]
        · have hne : ¬ (wrapInt32 (n + 1) = wrapInt32 (index + 1)) := by
            rw [hn1]; unfold wrapInt32; omega
          have hrec := ih k (n + 1) hk (by omega) (by omega) (by omega)
          have hidx : (index - n).toNat = (index - (n + 1)).toNat + 1 := by omega
          rw [hn1] at hne
          simp only [PinFinder.FindLoop, IEnum.Next, S_OK, hw, List.filter_cons]
          simp [hn1, hne, hrec, hidx]
      · have hrec := ih k n hk h0 hn (by omega)
        simp only [PinFinder.FindLoop, IEnum.Next, S_OK, hw, List.filter_cons]
        simp [hrec]

/-- The loop of `Find...Pin` for index 0: the first wanted pin, for any number of
pins. -/
theorem FindLoop_zero_eq_find (is_wanted : PinInfo → Bool) (items : List IPin) :
    ∀ (rest : List IPin) (fuel : Nat), rest.length < fuel →
      (PinFinder.FindLoop is_wanted 0 fuel ⟨items, rest⟩ 0).1 =
        rest.find? (fun p => is_wanted ⟨some p⟩) := by
  intro rest
  induction rest with
  | nil =>
    intro fuel hfuel
    cases fuel with
    | zero => omega
    | succ k => simp [PinFinder.FindLoop, IEnum.Next, S_OK, S_FALSE]
  | cons p rs ih =>
    intro fuel hfuel
    cases fuel with
    | zero => simp at hfuel
    | succ k =>
      have hk : rs.length < k := by simpa using hfuel
      by_cases hw : is_wanted ⟨some p⟩ = true
      · simp [PinFinder.FindLoop, IEnum.Next, S_OK, hw, List.find?_cons]
      · simp [PinFinder.FindLoop, IEnum.Next, S_OK, hw, List.find?_cons, ih k hk]

/-- A `Find...Pin` function on a freshly initialised finder. -/
theorem FindPin_fresh_eq (c : Codes) (is_wanted : PinInfo → Bool) (pf0 : PinFinder)
    (f : IBaseFilter) (index : Int) (henum : FAILED f.EnumPins = false)
    (hpins : f.pins.length < 2147483648) (h0 : 0 ≤ index) (hi : index < 2147483648) :
    (PinFinder.FindPin is_wanted (PinFinder.Init c pf0 (some f)).2 index).1 =
      (f.pins.filter (fun p => is_wanted ⟨some p⟩))[index.toNat]? := by
  have h := FindLoop_eq_getElem is_wanted index f.pins hi f.pins (f.pins.length + 1) 0
    (by omega) (by omega) h0 (by omega)
  simp only [PinFinder.Init, henum, PinFinder.FindPin, IEnum.fresh]
  simpa using h

/-- A `Find...Pin` function for index 0 on an enumerator at its start. -/
theorem FindPin_fresh_zero (is_wanted : PinInfo → Bool) (pins : List IPin) :
    (PinFinder.FindPin is_wanted ⟨some (IEnum.fresh pins)⟩ 0).1 =
      pins.find? (fun p => is_wanted ⟨some p⟩) := by
  have h := FindLoop_zero_eq_find is_wanted pins pins (pins.length + 1) (by omega)
  simpa [PinFinder.FindPin, IEnum.fresh] using h

/-- `PinFinder::Init` on a filter that enumerates its pins puts the enumerator at its
start, whatever the finder held before. -/
theorem PinFinder_Init_restarts (c : Codes) (pf1 pf2 : PinFinder) (f : IBaseFilter) :
    PinFinder.Init c pf1 (some f) = PinFinder.Init c pf2 (some f) := by
  simp [PinFinder.Init]

/-- Assigning under a key above all present keys appends the entry. -/
theorem SourceMap_assign_append (name : String) :
    ∀ (m : SourceMap) (key : Int), (∀ e ∈ m, e.1 < key) →
      SourceMap.assign m key name = m ++ [(key, name)] := by
  intro m
  induction m with
  | nil => intro key _; rfl
  | cons e rest ih =>
    intro key h
    obtain ⟨k, v⟩ := e
    have hk : k < key := h (k, v) (by simp)
    have hrest : ∀ e ∈ rest, e.1 < key := fun e he => h e (by simp [he])
    have h1 : ¬ key < k := by omega
    have h2 : ¬ key = k := by omega
    simp [SourceMap.assign, h1, h2, ih key hrest]

/-- `GetStringProperty` gives the empty string exactly when `Read` fails or reads an
empty string. -/
theorem GetStringProperty_eq_empty_iff (m : IMoniker) :
    CaptureSourceLoader.GetStringProperty m.props kFriendlyName = "" ↔
      ¬ (SUCCEEDED (m.props.Read kFriendlyName).1 = true ∧
          (m.props.Read kFriendlyName).2 ≠ "") := by
  unfold CaptureSourceLoader.GetStringProperty
  by_cases h : SUCCEEDED (m.props.Read kFriendlyName).1 = true <;> simp [h]

/-- The loop of `FindAllSources` with a budget above the number of devices left,
entered at position `i`: it runs the enumeration to its end and appends the named
devices with their positions. -/
theorem FindAllSources_loop_eq (items : List IMoniker) :
    ∀ (rest : List IMoniker) (fuel i : Nat) (sources : SourceMap), rest.length < fuel →
      i + rest.length < 2147483648 → (∀ e ∈ sources, e.1 < (i : Int)) →
      CaptureSourceLoader.FindAllSources.loop fuel ⟨items, rest⟩ (i : Int) sources =
        (⟨items, []⟩,
          sources ++ ((rest.enumFrom i).filter (fun e => e.2.hasFriendlyName)).map
            (fun e => ((e.1 : Int), (e.2.props.Read kFriendlyName).2))) := by
  intro rest
  induction rest with
  | nil =>
    intro fuel i sources hfuel _ _
    cases fuel with
    | zero => omega
    | succ k => simp [CaptureSourceLoader.FindAllSources.loop, IEnum.Next]
  | cons d ds ih =>
    intro fuel i sources hfuel hlen hkeys
    cases fuel with
    | zero => simp at hfuel
    | succ k =>
      have hk : ds.length < k := by simpa using hfuel
      simp only [List.length_cons] at hlen
      have hwrap : wrapInt32 ((i : Int) + 1) = (i : Int) + 1 :=
        wrapInt32_of_range _ (by omega) (by omega)
      have ih1 := ih k (i + 1)
      simp only [Nat.cast_add, Nat.cast_one] at ih1
      have hkeys1 : ∀ e ∈ sources, e.1 < (i : Int) + 1 := by
        intro e he; have := hkeys e he; omega
      have hok : (FAILED S_OK || decide (S_OK = S_FALSE)) = false := by decide
      simp only [CaptureSourceLoader.FindAllSources.loop, IEnum.Next, hok, hwrap,
        List.enumFrom_cons, List.filter_cons]
      by_cases hbag : (FAILED d.BindToStorage || decide (d.BindToStorage = S_FALSE)) = true
      · have hno : d.hasFriendlyName = false := by
          simp only [Bool.or_eq_true, decide_eq_true_eq] at hbag
          unfold IMoniker.hasFriendlyName
          rcases hbag with h | h <;> simp [h]
        simp [hbag, hno, ih1 sources hk (by omega) hkeys1]
      · have hbag1 : FAILED d.BindToStorage = false := by
          simp only [Bool.or_eq_true, decide_eq_true_eq, not_or] at hbag
          simpa using hbag.1
        have hbag2 : ¬ d.BindToStorage = S_FALSE := by
          simp only [Bool.or_eq_true, decide_eq_true_eq, not_or] at hbag
          exact hbag.2
        by_cases hname : CaptureSourceLoader.GetStringProperty d.props kFriendlyName = ""
        · have hno : d.hasFriendlyName = false := by
            have := (GetStringProperty_eq_empty_iff d).mp hname
            unfold IMoniker.hasFriendlyName
            by_cases hs : SUCCEEDED (d.props.Read kFriendlyName).1 = true
            · have h2 : (d.props.Read kFriendlyName).2 = "" := by
                by_contra hne; exact this ⟨hs, hne⟩
              simp [h2]
            · simp [hs]
          simp [hbag1, hbag2, hname, hno, ih1 sources hk (by omega) hkeys1]
        · have hyes := (not_congr (GetStringProperty_eq_empty_iff d)).mp hname
          simp only [not_not] at hyes
          have hhas : d.hasFriendlyName = true := by
            unfold IMoniker.hasFriendlyName
            simp [hbag1, hbag2, hyes.1, hyes.2]
          have hval : CaptureSourceLoader.GetStringProperty d.props kFriendlyName =
              (d.props.Read kFriendlyName).2 := by
            unfold CaptureSourceLoader.GetStringProperty; simp [hyes.1]
          have hassign := SourceMap_assign_append
            (CaptureSourceLoader.GetStringProperty d.props kFriendlyName) sources (i : Int) hkeys
          have hkeys2 : ∀ e ∈ sources ++
              [((i : Int), CaptureSourceLoader.GetStringProperty d.props kFriendlyName)],
              e.1 < (i : Int) + 1 := by
            intro e he
            rcases List.mem_append.mp he with h | h
            · exact hkeys1 e h
            · simp only [List.mem_singleton] at h; subst h; simp
          rw [hval] at hname hassign hkeys2
          simp [hbag1, hbag2, hname, hhas, hassign, ih1 _ hk (by omega) hkeys2, hval]

/-- `FindAllSources` extends the call log, starting with the creation of the system
device enumerator. -/
theorem FindAllSources_calls (c : Codes) (P : Platform) (self : CaptureSourceLoader)
    (calls : List Call) :
    ∃ tail, (CaptureSourceLoader.FindAllSources c P self calls).2.2 =
      calls ++ Call.CreateInstance GUID.CLSID_SystemDeviceEnum :: tail := by
  unfold CaptureSourceLoader.FindAllSources
  by_cases h1 : FAILED (P.CreateInstance GUID.CLSID_SystemDeviceEnum) = true
  · exact ⟨[], by simp [h1]⟩
  · refine ⟨[Call.CreateClassEnumerator self.source_type_], ?_⟩
    by_cases h2 : (FAILED (P.CreateClassEnumerator self.source_type_) ||
        decide (P.CreateClassEnumerator self.source_type_ = S_FALSE)) = true
    · simp [h1, h2]
    · simp only [h1, h2, Bool.false_eq_true, if_false]
      split_ifs <;> simp

/-- The loop of `GetSource` with a budget above the number of items left: it delivers
the item `index - i` positions ahead, or fails when the enumeration ends first. -/
theorem GetSource_loop_eq (index : Int) (items : List IMoniker) (hi : index + 1 < 2147483648) :
    ∀ (rest : List IMoniker) (fuel : Nat) (i : Int) (m : Option IMoniker),
      rest.length < fuel → 0 ≤ i → i ≤ index + 1 →
      CaptureSourceLoader.GetSource.loop index fuel ⟨items, rest⟩ i m =
        if (index + 1 - i).toNat ≤ rest.length then
          (true, if i ≤ index then rest[(index - i).toNat]? else m,
            ⟨items, rest.drop (index + 1 - i).toNat⟩)
        else (false, none, ⟨items, []⟩) := by
  intro rest
  induction rest with
  | nil =>
    intro fuel i m hfuel h0 hle
    cases fuel with
    | zero => omega
    | succ k =>
      by_cases hlt : i ≤ index
      · have h1 : ¬ (index + 1 - i).toNat ≤ 0 := by omega
        simp [CaptureSourceLoader.GetSource.loop, IEnum.Next, hlt, h1]
      · have h1 : (index + 1 - i).toNat = 0 := by omega
        simp [CaptureSourceLoader.GetSource.loop, hlt, h1]
  | cons d ds ih =>
    intro fuel i m hfuel h0 hle
    cases fuel with
    | zero => simp at hfuel
    | succ k =>
      have hk : ds.length < k := by simpa using hfuel
      by_cases hlt : i ≤ index
      · have hwrap : wrapInt32 (i + 1) = i + 1 := wrapInt32_of_range _ (by omega) (by omega)
        have hok : (FAILED S_OK || decide (S_OK = S_FALSE)) = false := by decide
        have hrec := ih k (i + 1) (some d) hk (by omega) (by omega)
        have e1 : (index + 1 - i).toNat = (index + 1 - (i + 1)).toNat + 1 := by omega
        simp only [CaptureSourceLoader.GetSource.loop, IEnum.Next, hlt, if_true, hok,
          Bool.false_eq_true, if_false, hwrap, hrec, List.length_cons, e1,
          Nat.add_le_add_iff_right, List.drop_succ_cons]
        by_cases hcond : (index + 1 - (i + 1)).toNat ≤ ds.length
        · simp only [hcond, if_true]
          by_cases hlast : i + 1 ≤ index
          · have e2 : (index - i).toNat = (index - (i + 1)).toNat + 1 := by omega
            simp [hlast, e2]
          · have e3 : (index - i).toNat = 0 := by omega
            simp [hlast, e3]
        · have hc2 : ¬ index ≤ (ds.length : Int) + i := by omega
          simp [hcond, hc2]
      · have h1 : (index + 1 - i).toNat = 0 := by omega
        simp [CaptureSourceLoader.GetSource.loop, hlt, h1]

/-- What `GetSource` does with an index it accepts: after a successful `Reset` it
binds the device at position `index` of the platform enumeration, whatever
`FindAllSources` recorded for that device. -/
theorem GetSource_binds_enumeration_position (P : Platform) (self : CaptureSourceLoader)
    (source_enum : IEnum IMoniker) (index : Int) (calls : List Call) (d : IMoniker)
    (henum : self.source_enum_ = some source_enum)
    (haccept : static_cast_size_t P index < self.sources_.length)
    (hreset : FAILED P.Reset = false) (h0 : 0 ≤ index) (hi : index + 1 < 2147483648)
    (hd : source_enum.items[index.toNat]? = some d) :
    self.GetSource P index calls =
      (d.BindToObject.2,
        { self with source_enum_ := some (IEnum.mk source_enum.items
            (source_enum.items.drop (index + 1).toNat)) },
        calls ++ [Call.Reset, Call.BindToObject d]) := by
  have hlen : index.toNat < source_enum.items.length := by
    rcases Nat.lt_or_ge index.toNat source_enum.items.length with h | h
    · exact h
    · rw [List.getElem?_eq_none h] at hd; cases hd
  have hloop := GetSource_loop_eq index source_enum.items hi source_enum.items
    (source_enum.items.length + 1) 0 none (by omega) (by omega) (by omega)
  have hcond : (index + 1).toNat ≤ source_enum.items.length := by omega
  have haccept2 : ¬ static_cast_size_t P index ≥ self.sources_.length := by omega
  simp only [sub_zero, hcond, if_true, h0, hd] at hloop
  simp only [CaptureSourceLoader.GetSource, haccept2, henum, hreset, IEnum.Reset, hloop]
  simp

/-- `GetSource` extends the call log. -/
theorem GetSource_calls (P : Platform) (self : CaptureSourceLoader) (index : Int)
    (calls : List Call) :
    ∃ tail, (CaptureSourceLoader.GetSource P self index calls).2.2 = calls ++ tail := by
  unfold CaptureSourceLoader.GetSource
  split_ifs
  · exact ⟨[], by simp⟩
  · split
    · exact ⟨[], by simp⟩
    · dsimp only
      split_ifs
      · exact ⟨[Call.Reset], rfl⟩
      · exact ⟨[Call.Reset], rfl⟩
      · split
        · exact ⟨[Call.Reset], rfl⟩
        · rename_i source_moniker _
          exact ⟨[Call.Reset, Call.BindToObject source_moniker], by simp⟩

/-- The size test of `GetSource` rejects a negative `int` and an `int` of at least
`n`, for `n` up to `2 ^ 31`. -/
theorem static_cast_size_t_ge (P : Platform) (index : Int) (n : Nat)
    (hbits : 32 ≤ P.size_t_bits) (hmin : -2147483648 ≤ index) (hmax : index < 2147483648)
    (hn : n ≤ 2147483648) (hidx : index < 0 ∨ (n : Int) ≤ index) :
    static_cast_size_t P index ≥ n := by
  unfold static_cast_size_t
  have hpow : (4294967296 : Int) ≤ (2 : Int) ^ P.size_t_bits := by
    have h : (2 : Int) ^ 32 ≤ (2 : Int) ^ P.size_t_bits :=
      pow_le_pow_right₀ (by norm_num) hbits
    simpa using h
  rcases hidx with hneg | hge
  · have hmod : index % (2 : Int) ^ P.size_t_bits = index + (2 : Int) ^ P.size_t_bits := by
      rw [← Int.add_mul_emod_self_left index ((2 : Int) ^ P.size_t_bits) 1, mul_one]
      exact Int.emod_eq_of_lt (by omega) (by omega)
    rw [hmod]
    omega
  · have hmod : index % (2 : Int) ^ P.size_t_bits = index :=
      Int.emod_eq_of_lt (by omega) (by omega)
    rw [hmod]
    omega

/-- `IsOutput` on a non-null pin is the platform's answer: `QueryDirection` answers
`S_OK` with `PINDIR_OUTPUT`. -/
theorem IsOutput_iff (p : IPin) :
    (PinInfo.mk (some p)).IsOutput = true ↔ p.HasDirection PIN_DIRECTION.PINDIR_OUTPUT := by
  simp [PinInfo.IsOutput, IPin.HasDirection]

/-- `IsInput` on a non-null pin is the platform's answer: `QueryDirection` answers
`S_OK` with `PINDIR_INPUT`. -/
theorem IsInput_iff (p : IPin) :
    (PinInfo.mk (some p)).IsInput = true ↔ p.HasDirection PIN_DIRECTION.PINDIR_INPUT := by
  simp [PinInfo.IsInput, IPin.HasDirection]

/-- `IsVideo` on a non-null pin: the pin advertises a media type of major type
`MEDIATYPE_Video`. -/
theorem IsVideo_iff (p : IPin) :
    (PinInfo.mk (some p)).IsVideo = true ↔ p.Advertises GUID.MEDIATYPE_Video := by
  simp [PinInfo.IsVideo, HasMajorType_eq, IPin.Advertises]

/-- `IsAudio` on a non-null pin: the pin advertises a media type of major type
`MEDIATYPE_Audio`. -/
theorem IsAudio_iff (p : IPin) :
    (PinInfo.mk (some p)).IsAudio = true ↔ p.Advertises GUID.MEDIATYPE_Audio := by
  simp [PinInfo.IsAudio, HasMajorType_eq, IPin.Advertises]

/-- A test of the code that agrees with a direction and a media kind selects the pins
of that direction and kind. -/
theorem filter_wanted_eq (pins : List IPin) (is_wanted : PinInfo → Bool)
    (direction : PIN_DIRECTION) (major : GUID)
    (h : ∀ p, is_wanted ⟨some p⟩ = true ↔ p.HasDirection direction ∧ p.Advertises major) :
    pins.filter (fun p => is_wanted ⟨some p⟩) =
      pins.filter (fun p => decide (p.HasDirection direction ∧ p.Advertises major)) := by
  apply List.filter_congr
  intro p _
  rw [Bool.eq_iff_iff]
  simp [h p]

/-- The test of `FindVideoOutputPin` is direction output and kind video. -/
theorem wanted_video_output (p : IPin) :
    ((PinInfo.mk (some p)).IsOutput && (PinInfo.mk (some p)).IsVideo) = true ↔
      p.HasDirection PIN_DIRECTION.PINDIR_OUTPUT ∧ p.Advertises GUID.MEDIATYPE_Video := by
  rw [Bool.and_eq_true, IsOutput_iff, IsVideo_iff]

/-- The test of `FindVideoInputPin` is direction input and kind video. -/
theorem wanted_video_input (p : IPin) :
    ((PinInfo.mk (some p)).IsInput && (PinInfo.mk (some p)).IsVideo) = true ↔
      p.HasDirection PIN_DIRECTION.PINDIR_INPUT ∧ p.Advertises GUID.MEDIATYPE_Video := by
  rw [Bool.and_eq_true, IsInput_iff, IsVideo_iff]

/-- The test of `FindAudioOutputPin` is direction output and kind audio. -/
theorem wanted_audio_output (p : IPin) :
    ((PinInfo.mk (some p)).IsOutput && (PinInfo.mk (some p)).IsAudio) = true ↔
      p.HasDirection PIN_DIRECTION.PINDIR_OUTPUT ∧ p.Advertises GUID.MEDIATYPE_Audio := by
  rw [Bool.and_eq_true, IsOutput_iff, IsAudio_iff]

/-- The test of `FindAudioInputPin` is direction input and kind audio. -/
theorem wanted_audio_input (p : IPin) :
    ((PinInfo.mk (some p)).IsInput && (PinInfo.mk (some p)).IsAudio) = true ↔
      p.HasDirection PIN_DIRECTION.PINDIR_INPUT ∧ p.Advertises GUID.MEDIATYPE_Audio := by
  rw [Bool.and_eq_true, IsInput_iff, IsAudio_iff]

/-- What `ConnectVideoSourceToVpxEncoder` does: nothing but return
`kVideoConnectError`; or, with the first video output pin of the video source and the
first video input pin of the encoder found, one `ConnectDirect` on them when
`graph_builder_` is non-null, and a raised `E_POINTER` with no call when it is null. -/
theorem Connect_cases (c : Codes) (P : Platform) (self : WebmEncoderImpl)
    (hc : c.WellFormed) :
    WebmEncoderImpl.ConnectVideoSourceToVpxEncoder c P self =
      (Outcome.returned c.impl.kVideoConnectError, self) ∨
    ∃ vs enc src sink,
      self.video_source_ = some vs ∧ self.vpx_encoder_ = some enc ∧
      FAILED vs.EnumPins = false ∧ FAILED enc.EnumPins = false ∧
      vs.pins.find? (fun p => (PinInfo.mk (some p)).IsOutput && (PinInfo.mk (some p)).IsVideo)
        = some src ∧
      enc.pins.find? (fun p => (PinInfo.mk (some p)).IsInput && (PinInfo.mk (some p)).IsVideo)
        = some sink ∧
      WebmEncoderImpl.ConnectVideoSourceToVpxEncoder c P self =
        if self.graph_builder_ = true then
          (Outcome.returned (if FAILED (P.ConnectDirect src sink none)
              then c.impl.kVideoConnectError else c.impl.kSuccess),
            { self with calls := self.calls ++ [Call.ConnectDirect src sink none] })
        else (Outcome.raised E_POINTER, self) := by
  obtain ⟨e0, _, _, hInit, _, _, _, _, hArg, _⟩ := hc
  unfold WebmEncoderImpl.ConnectVideoSourceToVpxEncoder
  cases hvs : self.video_source_ with
  | none => left; simp [PinFinder.Init, hArg]
  | some vs =>
    by_cases hvse : FAILED vs.EnumPins = true
    · left; simp [PinFinder.Init, hvse, hInit]
    · have hvse : FAILED vs.EnumPins = false := by simpa using hvse
      have hfind := FindPin_fresh_zero (fun i => i.IsOutput && i.IsVideo) vs.pins
      rcases hres : PinFinder.FindVideoOutputPin ⟨some (IEnum.fresh vs.pins)⟩ 0
        with ⟨_ | src, pf1⟩
      · left; simp [PinFinder.Init, hvse, e0, hres]
      · have hsrc : vs.pins.find? (fun p => (PinInfo.mk (some p)).IsOutput &&
            (PinInfo.mk (some p)).IsVideo) = some src := by
          rw [← hfind]
          show (PinFinder.FindVideoOutputPin ⟨some (IEnum.fresh vs.pins)⟩ 0).1 = some src
          rw [hres]
        cases henc : self.vpx_encoder_ with
        | none => left; simp [PinFinder.Init, hvse, e0, hres, hArg]
        | some enc =>
          by_cases hence : FAILED enc.EnumPins = true
          · left; simp [PinFinder.Init, hvse, e0, hres, hence, hInit]
          · have hence : FAILED enc.EnumPins = false := by simpa using hence
            have hfind2 := FindPin_fresh_zero (fun i => i.IsInput && i.IsVideo) enc.pins
            rcases hres2 : PinFinder.FindVideoInputPin ⟨some (IEnum.fresh enc.pins)⟩ 0
              with ⟨_ | sink, pf2⟩
            · left; simp [PinFinder.Init, hvse, e0, hres, hence, hres2]
            · have hsink : enc.pins.find? (fun p => (PinInfo.mk (some p)).IsInput &&
                  (PinInfo.mk (some p)).IsVideo) = some sink := by
                rw [← hfind2]
                show (PinFinder.FindVideoInputPin ⟨some (IEnum.fresh enc.pins)⟩ 0).1 = some sink
                rw [hres2]
              right
              refine ⟨vs, enc, src, sink, rfl, rfl, hvse, hence, hsrc, hsink, ?_⟩
              by_cases hg : self.graph_builder_ = true
              · by_cases hcd : FAILED (P.ConnectDirect src sink none) = true
                · simp [PinFinder.Init, hvse, e0, hres, hence, hres2, hcd, hg]
                · simp [PinFinder.Init, hvse, e0, hres, hence, hres2, hcd, hg]
              · simp [PinFinder.Init, hvse, e0, hres, hence, hres2, hg]

/-- `ConnectVideoSourceToVpxEncoder`, when it returns, returns `kVideoConnectError` or
`kSuccess`. -/
theorem Connect_status (c : Codes) (P : Platform) (self : WebmEncoderImpl)
    (hc : c.WellFormed) (status : Int)
    (h : (WebmEncoderImpl.ConnectVideoSourceToVpxEncoder c P self).1 =
      Outcome.returned status) :
    status = c.impl.kVideoConnectError ∨ status = c.impl.kSuccess := by
  rcases Connect_cases c P self hc with h1 | ⟨vs, enc, src, sink, _, _, _, _, _, _, h1⟩
  · rw [h1] at h
    left; exact (Outcome.returned.inj h).symm
  · rw [h1] at h
    by_cases hg : self.graph_builder_ = true
    · rw [if_pos hg] at h
      have h2 := (Outcome.returned.inj h).symm
      by_cases hcd : FAILED (P.ConnectDirect src sink none) = true
      · left; simpa [hcd] using h2
      · right; simpa [hcd] using h2
    · rw [if_neg hg] at h; cases h

/-- The status `Init` returns when the third or the fourth step is the first to return
non-zero: `kVideoEncoderError` in both cases. -/
theorem InitWith_video_encoder_error {σ : Type} (c : Codes) (m : BuildSteps σ) (out_file_name : String)
    (self : σ) :
    ((m.CreateGraph self).1 = Outcome.returned 0 →
      (m.CreateVideoSource "" (m.CreateGraph self).2).1 = Outcome.returned 0 →
      (m.CreateVpxEncoder (m.CreateVideoSource "" (m.CreateGraph self).2).2).1.ReturnedNonZero →
      (WebmEncoderImpl.InitWith c m out_file_name self).1 =
        Outcome.returned c.enc.kVideoEncoderError) ∧
    ((m.CreateGraph self).1 = Outcome.returned 0 →
      (m.CreateVideoSource "" (m.CreateGraph self).2).1 = Outcome.returned 0 →
      (m.CreateVpxEncoder (m.CreateVideoSource "" (m.CreateGraph self).2).2).1 =
        Outcome.returned 0 →
      (m.ConnectVideoSourceToVpxEncoder (m.CreateVpxEncoder
        (m.CreateVideoSource "" (m.CreateGraph self).2).2).2).1.ReturnedNonZero →
      (WebmEncoderImpl.InitWith c m out_file_name self).1 =
        Outcome.returned c.enc.kVideoEncoderError) := by
  simp only [WebmEncoderImpl.InitWith]
  rcases hr1 : m.CreateGraph self with ⟨o1, s1⟩
  rcases hr2 : m.CreateVideoSource "" s1 with ⟨o2, s2⟩
  rcases hr3 : m.CreateVpxEncoder s2 with ⟨o3, s3⟩
  rcases hr4 : m.ConnectVideoSourceToVpxEncoder s3 with ⟨o4, s4⟩
  constructor
  · intro h1 h2 h3
    simp only at h1 h2 h3
    subst h1
    simp only [hr2] at h2 ⊢
    subst h2
    simp only [hr3] at h3 ⊢
    rcases o3 with st3 | e3
    · have : st3 ≠ 0 := h3
      simp [hr2, hr3, this]
    · exact absurd h3 (by simp [Outcome.ReturnedNonZero])
  · intro h1 h2 h3 h4
    simp only at h1 h2 h3 h4
    subst h1
    simp only [hr2] at h2 h3 h4 ⊢
    subst h2
    simp only [hr3] at h3 h4 ⊢
    subst h3
    simp only [hr4] at h4 ⊢
    rcases o4 with st4 | e4
    · have : st4 ≠ 0 := h4
      simp [hr2, hr3, hr4, this]
    · exact absurd h4 (by simp [Outcome.ReturnedNonZero])

/-- `CreateGraph` always returns; when it returns zero, `graph_builder_` is non-null. -/
theorem CreateGraph_returns (c : Codes) (P : Platform) (self : WebmEncoderImpl)
    (hc : c.WellFormed) :
    (∃ status, (WebmEncoderImpl.CreateGraph c P self).1 = Outcome.returned status) ∧
    ((WebmEncoderImpl.CreateGraph c P self).1 = Outcome.returned 0 →
      (WebmEncoderImpl.CreateGraph c P self).2.graph_builder_ = true) := by
  have hg : c.impl.kCannotCreateGraph ≠ 0 := hc.2.2.2.2.2.2.2.2.2.1
  unfold WebmEncoderImpl.CreateGraph
  by_cases h1 : FAILED (P.CreateInstance GUID.CLSID_FilterGraph) = true
  · simp [h1, hg]
  · by_cases h2 : FAILED (P.CreateInstance GUID.CLSID_CaptureGraphBuilder2) = true
    · simp [h1, h2]
    · by_cases h3 : FAILED P.SetFiltergraph = true
      · simp [h1, h2, h3]
      · simp [h1, h2, h3]

/-- `CreateVideoSource` leaves `graph_builder_` as it was, and on a non-null
`graph_builder_` it returns. -/
theorem CreateVideoSource_returns (c : Codes) (P : Platform) (video_src : String)
    (self : WebmEncoderImpl) :
    (WebmEncoderImpl.CreateVideoSource c P video_src self).2.graph_builder_ =
      self.graph_builder_ ∧
    (self.graph_builder_ = true →
      ∃ status, (WebmEncoderImpl.CreateVideoSource c P video_src self).1 =
        Outcome.returned status) := by
  unfold WebmEncoderImpl.CreateVideoSource
  constructor
  · repeat' (first | split | (dsimp only; split))
    all_goals simp
  · intro hg
    repeat' (first | split | (dsimp only; split))
    all_goals simp_all

/-- `CreateVpxEncoder` leaves `graph_builder_` as it was, and on a non-null
`graph_builder_` it returns. -/
theorem CreateVpxEncoder_returns (c : Codes) (P : Platform) (self : WebmEncoderImpl) :
    (WebmEncoderImpl.CreateVpxEncoder c P self).2.graph_builder_ = self.graph_builder_ ∧
    (self.graph_builder_ = true →
      ∃ status, (WebmEncoderImpl.CreateVpxEncoder c P self).1 = Outcome.returned status) := by
  unfold WebmEncoderImpl.CreateVpxEncoder
  constructor
  · repeat' (first | split | (dsimp only; split))
    all_goals simp
  · intro hg
    repeat' (first | split | (dsimp only; split))
    all_goals simp_all

/-- `ConnectVideoSourceToVpxEncoder` leaves `graph_builder_` as it was, and on a
non-null `graph_builder_` it returns. -/
theorem Connect_returns (c : Codes) (P : Platform) (self : WebmEncoderImpl) :
    (WebmEncoderImpl.ConnectVideoSourceToVpxEncoder c P self).2.graph_builder_ =
      self.graph_builder_ ∧
    (self.graph_builder_ = true →
      ∃ status, (WebmEncoderImpl.ConnectVideoSourceToVpxEncoder c P self).1 =
        Outcome.returned status) := by
  unfold WebmEncoderImpl.ConnectVideoSourceToVpxEncoder
  constructor
  · repeat' (first | split | (dsimp only; split))
    all_goals simp
  · intro hg
    repeat' (first | split | (dsimp only; split))
    all_goals simp_all

/-- On a non-null `graph_builder_`, `CreateAudioSource` returns. -/
theorem CreateAudioSource_returns (c : Codes) (P : Platform) (audio_src : String)
    (self : WebmEncoderImpl) (hg : self.graph_builder_ = true) :
    ∃ status, (WebmEncoderImpl.CreateAudioSource c P audio_src self).1 =
      Outcome.returned status := by
  unfold WebmEncoderImpl.CreateAudioSource
  repeat' (first | split | (dsimp only; split))
  all_goals simp_all

/-- `Init` always returns a status: `CreateGraph` runs first, and either makes `Init`
return or leaves a non-null `graph_builder_`, on which no later step raises. -/
theorem Init_returns (c : Codes) (P : Platform) (out_file_name : String)
    (self : WebmEncoderImpl) (hc : c.WellFormed) :
    ∃ status, (WebmEncoderImpl.Init c P out_file_name self).1 = Outcome.returned status := by
  obtain ⟨⟨st1, h1⟩, g1⟩ := CreateGraph_returns c P self hc
  simp only [WebmEncoderImpl.Init, WebmEncoderImpl.InitWith, WebmEncoderImpl.steps]
  rcases hr1 : WebmEncoderImpl.CreateGraph c P self with ⟨o1, s1⟩
  rw [hr1] at h1 g1
  simp only at h1 g1
  subst h1
  by_cases z1 : st1 = 0
  swap
  · exact ⟨c.enc.kInitFailed, by simp [z1]⟩
  subst z1
  simp only [ne_eq, not_true_eq_false, if_false]
  have gb1 : s1.graph_builder_ = true := g1 rfl
  have k2 := CreateVideoSource_returns c P "" s1
  obtain ⟨st2, h2⟩ := k2.2 gb1
  have gb2 := k2.1.trans gb1
  rcases hr2 : WebmEncoderImpl.CreateVideoSource c P "" s1 with ⟨o2, s2⟩
  rw [hr2] at h2 gb2
  simp only at h2 gb2
  subst h2
  by_cases z2 : st2 = 0
  swap
  · exact ⟨c.enc.kNoVideoSource, by simp [z2]⟩
  subst z2
  simp only [ne_eq, not_true_eq_false, if_false]
  have k3 := CreateVpxEncoder_returns c P s2
  obtain ⟨st3, h3⟩ := k3.2 gb2
  have gb3 := k3.1.trans gb2
  rcases hr3 : WebmEncoderImpl.CreateVpxEncoder c P s2 with ⟨o3, s3⟩
  rw [hr3] at h3 gb3
  simp only at h3 gb3
  subst h3
  by_cases z3 : st3 = 0
  swap
  · exact ⟨c.enc.kVideoEncoderError, by simp [z3]⟩
  subst z3
  simp only [ne_eq, not_true_eq_false, if_false]
  have k4 := Connect_returns c P s3
  obtain ⟨st4, h4⟩ := k4.2 gb3
  have gb4 := k4.1.trans gb3
  rcases hr4 : WebmEncoderImpl.ConnectVideoSourceToVpxEncoder c P s3 with ⟨o4, s4⟩
  rw [hr4] at h4 gb4
  simp only at h4 gb4
  subst h4
  by_cases z4 : st4 = 0
  swap
  · exact ⟨c.enc.kVideoEncoderError, by simp [z4]⟩
  subst z4
  simp only [ne_eq, not_true_eq_false, if_false]
  obtain ⟨st5, h5⟩ := CreateAudioSource_returns c P "" s4 gb4
  rcases hr5 : WebmEncoderImpl.CreateAudioSource c P "" s4 with ⟨o5, s5⟩
  rw [hr5] at h5
  simp only at h5
  subst h5
  by_cases z5 : st5 = 0
  · exact ⟨c.impl.kSuccess, by simp [z5]⟩
  · exact ⟨c.enc.kNoAudioSource, by simp [z5]⟩

/-! ## The claims -/

/-- C1. For any five step functions over any object state (hence for every outcome of
the platform calls) `Init` invokes the steps in the order CreateGraph,
CreateVideoSource, CreateVpxEncoder, ConnectVideoSourceToVpxEncoder,
CreateAudioSource, each on the state its predecessor left: run on the traced steps
from an empty trace, it ends after the first step that returns non-zero with exactly
the steps up to that one invoked, and with a failure code; after five zero statuses
all five were invoked and it returns `kSuccess`.  It returns `kSuccess` if and only if
all five steps returned zero.  Tracing does not change outcome or object state.  A
step that raises an error ends `Init` with that error in the same way: no later step
is invoked. -/
theorem C1_Init_runs_steps_in_order_until_first_failure {σ : Type} (c : Codes)
    (m : BuildSteps σ) (out_file_name : String) (self : σ) (hc : c.WellFormed) :
    let r1 := m.CreateGraph self
    let r2 := m.CreateVideoSource "" r1.2
    let r3 := m.CreateVpxEncoder r2.2
    let r4 := m.ConnectVideoSourceToVpxEncoder r3.2
    let r5 := m.CreateAudioSource "" r4.2
    let out := WebmEncoderImpl.InitWith c m.traced out_file_name (self, [])
    let zero := Outcome.returned 0
    (r1.1.ReturnedNonZero →
      out = (Outcome.returned c.enc.kInitFailed, r1.2, [Step.CreateGraph])) ∧
    (r1.1 = zero → r2.1.ReturnedNonZero →
      out = (Outcome.returned c.enc.kNoVideoSource, r2.2,
        [Step.CreateGraph, Step.CreateVideoSource])) ∧
    (r1.1 = zero → r2.1 = zero → r3.1.ReturnedNonZero →
      out = (Outcome.returned c.enc.kVideoEncoderError, r3.2,
        [Step.CreateGraph, Step.CreateVideoSource, Step.CreateVpxEncoder])) ∧
    (r1.1 = zero → r2.1 = zero → r3.1 = zero → r4.1.ReturnedNonZero →
      out = (Outcome.returned c.enc.kVideoEncoderError, r4.2,
        [Step.CreateGraph, Step.CreateVideoSource, Step.CreateVpxEncoder,
          Step.ConnectVideoSourceToVpxEncoder])) ∧
    (r1.1 = zero → r2.1 = zero → r3.1 = zero → r4.1 = zero → r5.1.ReturnedNonZero →
      out = (Outcome.returned c.enc.kNoAudioSource, r5.2,
        [Step.CreateGraph, Step.CreateVideoSource, Step.CreateVpxEncoder,
          Step.ConnectVideoSourceToVpxEncoder, Step.CreateAudioSource])) ∧
    (r1.1 = zero → r2.1 = zero → r3.1 = zero → r4.1 = zero → r5.1 = zero →
      out = (Outcome.returned c.impl.kSuccess, r5.2,
        [Step.CreateGraph, Step.CreateVideoSource, Step.CreateVpxEncoder,
          Step.ConnectVideoSourceToVpxEncoder, Step.CreateAudioSource])) ∧
    (out.1 = Outcome.returned c.impl.kSuccess ↔
      r1.1 = zero ∧ r2.1 = zero ∧ r3.1 = zero ∧ r4.1 = zero ∧ r5.1 = zero) ∧
    (out.1 ≠ Outcome.returned c.impl.kSuccess → out.1 ≠ zero) ∧
    WebmEncoderImpl.InitWith c m out_file_name self = (out.1, out.2.1) ∧
    (∀ error, r1.1 = Outcome.raised error →
      out = (Outcome.raised error, r1.2, [Step.CreateGraph])) ∧
    (∀ error, r1.1 = zero → r2.1 = Outcome.raised error →
      out = (Outcome.raised error, r2.2, [Step.CreateGraph, Step.CreateVideoSource])) ∧
    (∀ error, r1.1 = zero → r2.1 = zero → r3.1 = Outcome.raised error →
      out = (Outcome.raised error, r3.2,
        [Step.CreateGraph, Step.CreateVideoSource, Step.CreateVpxEncoder])) ∧
    (∀ error, r1.1 = zero → r2.1 = zero → r3.1 = zero → r4.1 = Outcome.raised error →
      out = (Outcome.raised error, r4.2,
        [Step.CreateGraph, Step.CreateVideoSource, Step.CreateVpxEncoder,
          Step.ConnectVideoSourceToVpxEncoder])) ∧
    (∀ error, r1.1 = zero → r2.1 = zero → r3.1 = zero → r4.1 = zero →
      r5.1 = Outcome.raised error →
      out = (Outcome.raised error, r5.2,
        [Step.CreateGraph, Step.CreateVideoSource, Step.CreateVpxEncoder,
          Step.ConnectVideoSourceToVpxEncoder, Step.CreateAudioSource])) := by
  intro r1 r2 r3 r4 r5 out zero
  obtain ⟨_, i0, _, hInit, hNoVideo, hVideoEnc, hNoAudio, _⟩ := hc
  simp only [out, r1, r2, r3, r4, r5, zero, WebmEncoderImpl.InitWith, BuildSteps.traced,
    List.nil_append, List.cons_append]
  rcases hr1 : m.CreateGraph self with ⟨o1, s1⟩
  rcases o1 with st1 | e1
  swap
  · simp [Outcome.ReturnedNonZero]
  by_cases z1 : st1 = 0
  swap
  · simp [z1, i0, hInit, Outcome.ReturnedNonZero]
  subst z1
  dsimp only
  rcases hr2 : m.CreateVideoSource "" s1 with ⟨o2, s2⟩
  rcases o2 with st2 | e2
  swap
  · simp [Outcome.ReturnedNonZero]
  by_cases z2 : st2 = 0
  swap
  · simp [z2, i0, hNoVideo, Outcome.ReturnedNonZero]
  subst z2
  dsimp only
  rcases hr3 : m.CreateVpxEncoder s2 with ⟨o3, s3⟩
  rcases o3 with st3 | e3
  swap
  · simp [Outcome.ReturnedNonZero]
  by_cases z3 : st3 = 0
  swap
  · simp [z3, i0, hVideoEnc, Outcome.ReturnedNonZero]
  subst z3
  dsimp only
  rcases hr4 : m.ConnectVideoSourceToVpxEncoder s3 with ⟨o4, s4⟩
  rcases o4 with st4 | e4
  swap
  · simp [Outcome.ReturnedNonZero]
  by_cases z4 : st4 = 0
  swap
  · simp [z4, i0, hVideoEnc, Outcome.ReturnedNonZero]
  subst z4
  dsimp only
  rcases hr5 : m.CreateAudioSource "" s4 with ⟨o5, s5⟩
  rcases o5 with st5 | e5
  swap
  · simp [Outcome.ReturnedNonZero]
  by_cases z5 : st5 = 0
  swap
  · simp [z5, i0, hNoAudio, Outcome.ReturnedNonZero]
  subst z5
  simp [i0, Outcome.ReturnedNonZero]

/-- C1 at a concrete input: with the real member functions on a platform without a VP8
encoder, `Init` invokes CreateGraph, CreateVideoSource and CreateVpxEncoder, never
ConnectVideoSourceToVpxEncoder, and returns `kVideoEncoderError`. -/
theorem C1_Init_witness :
    sampleCodes.WellFormed ∧
    WebmEncoderImpl.InitWith sampleCodes
        (WebmEncoderImpl.steps sampleCodes platformWithoutEncoder).traced "out.webm"
        (WebmEncoderImpl.new, []) =
      (Outcome.returned sampleCodes.enc.kVideoEncoderError,
        (WebmEncoderImpl.CreateVpxEncoder sampleCodes platformWithoutEncoder
          (WebmEncoderImpl.beforeCreateVpxEncoder sampleCodes platformWithoutEncoder
            WebmEncoderImpl.new)).2,
        [Step.CreateGraph, Step.CreateVideoSource, Step.CreateVpxEncoder]) :=
  ⟨by decide,
    (C1_Init_runs_steps_in_order_until_first_failure sampleCodes
      (WebmEncoderImpl.steps sampleCodes platformWithoutEncoder) "out.webm"
      WebmEncoderImpl.new (by decide)).2.2.1 (by decide) (by decide) (by decide)⟩

/-- C2 as stated fails: a run of `Init` that fails in CreateVpxEncoder (no VP8 encoder
registered) and a run that fails in ConnectVideoSourceToVpxEncoder (the graph rejects
the connection) return the same code. -/
theorem C2_counterexample_same_code_for_both_phases :
    FailsInCreateVpxEncoder sampleCodes platformWithoutEncoder WebmEncoderImpl.new ∧
    FailsInConnect sampleCodes platformRejectingConnection WebmEncoderImpl.new ∧
    (WebmEncoderImpl.Init sampleCodes platformWithoutEncoder "out.webm"
        WebmEncoderImpl.new).1 =
      (WebmEncoderImpl.Init sampleCodes platformRejectingConnection "out.webm"
        WebmEncoderImpl.new).1 ∧
    (WebmEncoderImpl.Init sampleCodes platformRejectingConnection "out.webm"
        WebmEncoderImpl.new).1 = Outcome.returned sampleCodes.enc.kVideoEncoderError := by
  refine ⟨by decide, by decide, by decide, by decide⟩

/-- C2, amended. `Init` reports a failure of CreateVpxEncoder and a failure of
ConnectVideoSourceToVpxEncoder with one and the same code,
`WebmEncoder::kVideoEncoderError`.  The code that names the connection phase,
`kVideoConnectError`, is the status ConnectVideoSourceToVpxEncoder itself returns on
every failure; `Init` does not return it. -/
theorem C2_Init_reports_both_phases_as_video_encoder_error (c : Codes)
    (P1 P2 : Platform) (name1 name2 : String) (self1 self2 : WebmEncoderImpl)
    (hc : c.WellFormed) (h1 : FailsInCreateVpxEncoder c P1 self1)
    (h2 : FailsInConnect c P2 self2) :
    (WebmEncoderImpl.Init c P1 name1 self1).1 = Outcome.returned c.enc.kVideoEncoderError ∧
    (WebmEncoderImpl.Init c P2 name2 self2).1 = Outcome.returned c.enc.kVideoEncoderError ∧
    (WebmEncoderImpl.ConnectVideoSourceToVpxEncoder c P2
      (WebmEncoderImpl.beforeConnect c P2 self2)).1 =
        Outcome.returned c.impl.kVideoConnectError := by
  obtain ⟨a1, a2, a3⟩ := h1
  obtain ⟨b1, b2, b3, b4⟩ := h2
  have g1 := InitWith_video_encoder_error c (WebmEncoderImpl.steps c P1) name1 self1
  have g2 := InitWith_video_encoder_error c (WebmEncoderImpl.steps c P2) name2 self2
  refine ⟨(g1.1 a1 a2 a3), (g2.2 b1 b2 b3 b4), ?_⟩
  cases hr : (WebmEncoderImpl.ConnectVideoSourceToVpxEncoder c P2
      (WebmEncoderImpl.beforeConnect c P2 self2)).1 with
  | raised e => rw [hr] at b4; exact absurd b4 (by simp [Outcome.ReturnedNonZero])
  | returned status =>
    rw [hr] at b4
    rcases Connect_status c P2 _ hc status hr with h | h
    · rw [h]
    · rw [h, hc.2.1] at b4
      exact absurd rfl b4

/-- C2, amended, at a concrete input: the two runs of the counterexample. -/
theorem C2_Init_reports_witness :
    (sampleCodes.WellFormed ∧
      FailsInCreateVpxEncoder sampleCodes platformWithoutEncoder WebmEncoderImpl.new ∧
      FailsInConnect sampleCodes platformRejectingConnection WebmEncoderImpl.new) ∧
    (WebmEncoderImpl.Init sampleCodes platformWithoutEncoder "a.webm"
      WebmEncoderImpl.new).1 = Outcome.returned (-3) ∧
    (WebmEncoderImpl.Init sampleCodes platformRejectingConnection "b.webm"
      WebmEncoderImpl.new).1 = Outcome.returned (-3) ∧
    (WebmEncoderImpl.ConnectVideoSourceToVpxEncoder sampleCodes platformRejectingConnection
      (WebmEncoderImpl.beforeConnect sampleCodes platformRejectingConnection
        WebmEncoderImpl.new)).1 = Outcome.returned (-205) :=
  ⟨⟨by decide, by decide, by decide⟩,
    C2_Init_reports_both_phases_as_video_encoder_error sampleCodes platformWithoutEncoder
      platformRejectingConnection "a.webm" "b.webm" WebmEncoderImpl.new WebmEncoderImpl.new
      (by decide) (by decide) (by decide)⟩

/-- C3. On a `PinFinder` freshly initialised on a filter whose `EnumPins` succeeds
(any earlier state of the finder is replaced), each of the four `Find...Pin` functions
returns, for an index `0 ≤ index`, the `index`-th (0-based) pin in enumeration order
among the pins whose `QueryDirection` answers the requested direction and whose
advertised media types include the requested major type, and the null pin when there
are at most `index` such pins (`l[i]?` is `none` exactly then).  The index is a C++
`int`, and the filter has fewer than `2 ^ 31` pins. -/
theorem C3_find_pin_returns_indexth_match (c : Codes) (pf0 : PinFinder) (f : IBaseFilter)
    (index : Int) (henum : FAILED f.EnumPins = false) (hpins : f.pins.length < 2147483648)
    (h0 : 0 ≤ index) (hi : index < 2147483648) :
    (PinFinder.Init c pf0 (some f)).1 = c.enc.kSuccess ∧
    ((PinFinder.Init c pf0 (some f)).2.FindVideoOutputPin index).1 =
      (matchingPins f PIN_DIRECTION.PINDIR_OUTPUT GUID.MEDIATYPE_Video)[index.toNat]? ∧
    ((PinFinder.Init c pf0 (some f)).2.FindVideoInputPin index).1 =
      (matchingPins f PIN_DIRECTION.PINDIR_INPUT GUID.MEDIATYPE_Video)[index.toNat]? ∧
    ((PinFinder.Init c pf0 (some f)).2.FindAudioOutputPin index).1 =
      (matchingPins f PIN_DIRECTION.PINDIR_OUTPUT GUID.MEDIATYPE_Audio)[index.toNat]? ∧
    ((PinFinder.Init c pf0 (some f)).2.FindAudioInputPin index).1 =
      (matchingPins f PIN_DIRECTION.PINDIR_INPUT GUID.MEDIATYPE_Audio)[index.toNat]? := by
  refine ⟨by simp [PinFinder.Init, henum], ?_, ?_, ?_, ?_⟩
  · exact (FindPin_fresh_eq c (fun i => i.IsOutput && i.IsVideo) pf0 f index henum hpins h0 hi).trans
      (congrArg (fun l => l[index.toNat]?) (filter_wanted_eq f.pins
        (fun i => i.IsOutput && i.IsVideo) PIN_DIRECTION.PINDIR_OUTPUT GUID.MEDIATYPE_Video wanted_video_output))
  · exact (FindPin_fresh_eq c (fun i => i.IsInput && i.IsVideo) pf0 f index henum hpins h0 hi).trans
      (congrArg (fun l => l[index.toNat]?) (filter_wanted_eq f.pins
        (fun i => i.IsInput && i.IsVideo) PIN_DIRECTION.PINDIR_INPUT GUID.MEDIATYPE_Video wanted_video_input))
  · exact (FindPin_fresh_eq c (fun i => i.IsOutput && i.IsAudio) pf0 f index henum hpins h0 hi).trans
      (congrArg (fun l => l[index.toNat]?) (filter_wanted_eq f.pins
        (fun i => i.IsOutput && i.IsAudio) PIN_DIRECTION.PINDIR_OUTPUT GUID.MEDIATYPE_Audio wanted_audio_output))
  · exact (FindPin_fresh_eq c (fun i => i.IsInput && i.IsAudio) pf0 f index henum hpins h0 hi).trans
      (congrArg (fun l => l[index.toNat]?) (filter_wanted_eq f.pins
        (fun i => i.IsInput && i.IsAudio) PIN_DIRECTION.PINDIR_INPUT GUID.MEDIATYPE_Audio wanted_audio_input))

/-- C3 at a concrete input: on a filter with an audio input pin, a video input pin,
a video output pin and an audio output pin, in that order, index 0 selects each of
them by direction and kind, and index 1 finds no second video output pin. -/
theorem C3_find_pin_witness :
    (FAILED demoFourPinFilter.EnumPins = false ∧
      demoFourPinFilter.pins.length < 2147483648) ∧
    ((PinFinder.Init sampleCodes ⟨none⟩ (some demoFourPinFilter)).2.FindVideoOutputPin 0).1 =
      some (demoPin 52 PIN_DIRECTION.PINDIR_OUTPUT GUID.MEDIATYPE_Video) ∧
    ((PinFinder.Init sampleCodes ⟨none⟩ (some demoFourPinFilter)).2.FindVideoInputPin 0).1 =
      some (demoPin 51 PIN_DIRECTION.PINDIR_INPUT GUID.MEDIATYPE_Video) ∧
    ((PinFinder.Init sampleCodes ⟨none⟩ (some demoFourPinFilter)).2.FindAudioOutputPin 0).1 =
      some (demoPin 53 PIN_DIRECTION.PINDIR_OUTPUT GUID.MEDIATYPE_Audio) ∧
    ((PinFinder.Init sampleCodes ⟨none⟩ (some demoFourPinFilter)).2.FindAudioInputPin 0).1 =
      some (demoPin 50 PIN_DIRECTION.PINDIR_INPUT GUID.MEDIATYPE_Audio) ∧
    ((PinFinder.Init sampleCodes ⟨none⟩ (some demoFourPinFilter)).2.FindVideoOutputPin 1).1 =
      none :=
  ⟨⟨by decide, by decide⟩,
    (C3_find_pin_returns_indexth_match sampleCodes ⟨none⟩ demoFourPinFilter 0
      (by decide) (by decide) (by decide) (by decide)).2.1.trans (by decide),
    (C3_find_pin_returns_indexth_match sampleCodes ⟨none⟩ demoFourPinFilter 0
      (by decide) (by decide) (by decide) (by decide)).2.2.1.trans (by decide),
    (C3_find_pin_returns_indexth_match sampleCodes ⟨none⟩ demoFourPinFilter 0
      (by decide) (by decide) (by decide) (by decide)).2.2.2.1.trans (by decide),
    (C3_find_pin_returns_indexth_match sampleCodes ⟨none⟩ demoFourPinFilter 0
      (by decide) (by decide) (by decide) (by decide)).2.2.2.2.trans (by decide),
    (C3_find_pin_returns_indexth_match sampleCodes ⟨none⟩ demoFourPinFilter 1
      (by decide) (by decide) (by decide) (by decide)).2.1.trans (by decide)⟩

/-- C4. For every pin and every target major type, `HasMajorType` returns true if and
only if the pin is non-null, its media type enumeration is obtained, and at least one
media type it advertises, at any position, has that major type.  `IsAudio` and
`IsVideo` are `HasMajorType` for `MEDIATYPE_Audio` and `MEDIATYPE_Video`.  The result
is false for a null pin, for a pin whose `EnumMediaTypes` fails, and for a pin
advertising no type of that kind; and it is the same for two pins that advertise the
same types in different orders. -/
theorem C4_HasMajorType_any_advertised (pin : Option IPin) (major_type : GUID) :
    ((PinInfo.mk pin).HasMajorType major_type = true ↔
      ∃ p, pin = some p ∧ SUCCEEDED p.EnumMediaTypes.1 = true ∧
        ∃ media_type ∈ p.EnumMediaTypes.2, media_type.majortype = major_type) ∧
    (PinInfo.mk pin).IsAudio = (PinInfo.mk pin).HasMajorType GUID.MEDIATYPE_Audio ∧
    (PinInfo.mk pin).IsVideo = (PinInfo.mk pin).HasMajorType GUID.MEDIATYPE_Video ∧
    (PinInfo.mk none).HasMajorType major_type = false ∧
    (∀ p : IPin, SUCCEEDED p.EnumMediaTypes.1 = false →
      (PinInfo.mk (some p)).HasMajorType major_type = false) ∧
    (∀ p : IPin, (∀ media_type ∈ p.EnumMediaTypes.2, media_type.majortype ≠ major_type) →
      (PinInfo.mk (some p)).HasMajorType major_type = false) ∧
    (∀ p q : IPin, p.EnumMediaTypes.1 = q.EnumMediaTypes.1 →
      p.EnumMediaTypes.2.Perm q.EnumMediaTypes.2 →
      (PinInfo.mk (some p)).HasMajorType major_type =
        (PinInfo.mk (some q)).HasMajorType major_type) := by
  refine ⟨?_, ?_, ?_, ?_, ?_, ?_, ?_⟩
  · cases pin with
    | none => simp [PinInfo.HasMajorType]
    | some p => simp [HasMajorType_eq]
  · cases pin <;> simp [PinInfo.IsAudio, PinInfo.HasMajorType]
  · cases pin <;> simp [PinInfo.IsVideo, PinInfo.HasMajorType]
  · simp [PinInfo.HasMajorType]
  · intro p hp
    simp [HasMajorType_eq, hp]
  · intro p hp
    simp only [HasMajorType_eq, Bool.and_eq_false_imp]
    intro _
    simpa using hp
  · intro p q hhr hperm
    simp only [HasMajorType_eq, hhr]
    congr 1
    rw [Bool.eq_iff_iff]
    simp only [List.any_eq_true]
    constructor
    · rintro ⟨x, hx, h⟩; exact ⟨x, hperm.mem_iff.mp hx, h⟩
    · rintro ⟨x, hx, h⟩; exact ⟨x, hperm.mem_iff.mpr hx, h⟩

/-- C5. On a loader that has recorded nothing yet, when the device enumerator is
created (neither `CreateInstance(CLSID_SystemDeviceEnum)` nor
`CreateClassEnumerator` fails or answers `S_FALSE`), `FindAllSources` records exactly
the devices that expose a property bag and a non-empty `FriendlyName`, in enumeration
order, each under its position in the enumeration, and skips every other device
without ending the enumeration; when the enumerator is not created it records nothing.
It returns `kNoDeviceFound` if and only if nothing was recorded, and `kSuccess`
otherwise.  `Init` with a valid category is `FindAllSources` for that category.  The
enumeration has fewer than `2 ^ 31` devices (positions are C++ `int`). -/
theorem C5_FindAllSources_records_named_devices (c : Codes) (P : Platform)
    (self : CaptureSourceLoader) (calls : List Call) (hfresh : self.sources_ = [])
    (hlen : (P.devices self.source_type_).length < 2147483648)
    (hc : c.loader.kNoDeviceFound ≠ c.loader.kSuccess) :
    let r := CaptureSourceLoader.FindAllSources c P self calls
    let created : Bool := !FAILED (P.CreateInstance GUID.CLSID_SystemDeviceEnum) &&
      !(FAILED (P.CreateClassEnumerator self.source_type_) ||
        decide (P.CreateClassEnumerator self.source_type_ = S_FALSE))
    (created = true → r.2.1.sources_ = namedSources (P.devices self.source_type_)) ∧
    (created = false → r.2.1.sources_ = [] ∧ r.1 = c.loader.kNoDeviceFound) ∧
    (r.1 = c.loader.kNoDeviceFound ↔ r.2.1.sources_ = []) ∧
    (r.1 = c.loader.kNoDeviceFound ∨ r.1 = c.loader.kSuccess) ∧
    (∀ source_type : GUID,
      source_type = GUID.CLSID_AudioInputDeviceCategory ∨
        source_type = GUID.CLSID_VideoInputDeviceCategory →
      CaptureSourceLoader.Init c P self source_type calls =
        CaptureSourceLoader.FindAllSources c P { self with source_type_ := source_type }
          calls) := by
  intro r created
  have hloop := FindAllSources_loop_eq (P.devices self.source_type_)
    (P.devices self.source_type_) ((P.devices self.source_type_).length + 1) 0 []
    (by omega) (by simpa using hlen) (by simp)
  simp only [Nat.cast_zero, List.nil_append] at hloop
  have hnamed : namedSources (P.devices self.source_type_) =
      ((P.devices self.source_type_).enumFrom 0 |>.filter (fun e => e.2.hasFriendlyName)).map
        (fun e => ((e.1 : Int), (e.2.props.Read kFriendlyName).2)) := rfl
  have hr : r = CaptureSourceLoader.FindAllSources c P self calls := rfl
  unfold CaptureSourceLoader.FindAllSources at hr
  by_cases h1 : FAILED (P.CreateInstance GUID.CLSID_SystemDeviceEnum) = true
  · simp only [h1, if_true] at hr
    simp [created, hr, h1, hfresh, CaptureSourceLoader.Init]
  · by_cases h2 : (FAILED (P.CreateClassEnumerator self.source_type_) ||
        decide (P.CreateClassEnumerator self.source_type_ = S_FALSE)) = true
    · simp only [h1, h2, if_true] at hr
      simp [created, hr, h1, h2, hfresh, CaptureSourceLoader.Init]
    · simp only [h1, h2, IEnum.fresh, hfresh, hloop, ← hnamed] at hr
      by_cases h3 : namedSources (P.devices self.source_type_) = []
      · simp [created, hr, h1, h2, h3, CaptureSourceLoader.Init]
      · have h3' : ¬ (namedSources (P.devices self.source_type_)).length = 0 := by
          simpa using h3
        simp only [h3', if_false] at hr
        have hc' : ¬ c.loader.kSuccess = c.loader.kNoDeviceFound := fun h => hc h.symm
        simp [created, hr, h1, h2, h3, hc', CaptureSourceLoader.Init]

/-- C5 at a concrete input: of a nameless device followed by "Cam B", only "Cam B" is
recorded, under its enumeration position 1, and the status is `kSuccess`. -/
theorem C5_FindAllSources_witness :
    (CaptureSourceLoader.new.sources_ = [] ∧
      sampleCodes.loader.kNoDeviceFound ≠ sampleCodes.loader.kSuccess) ∧
    (CaptureSourceLoader.FindAllSources sampleCodes platformWithNamelessDevice
        { CaptureSourceLoader.new with source_type_ := GUID.CLSID_VideoInputDeviceCategory }
        []).2.1.sources_ = [(1, "Cam B")] :=
  ⟨⟨by decide, by decide⟩,
    ((C5_FindAllSources_records_named_devices sampleCodes platformWithNamelessDevice
      { CaptureSourceLoader.new with source_type_ := GUID.CLSID_VideoInputDeviceCategory }
      [] (by decide) (by decide) (by decide)).1 (by decide)).trans (by decide)⟩

/-- C6, the code at the failing input.  The enumeration is a nameless device followed
by "Cam B".  `Init` records "Cam B" only, so index 0 is the one index `GetSource`
accepts; `GetSource(0)` walks the platform enumeration from its start and binds the
nameless device, which was skipped, and index 1, the position of "Cam B", is
refused. -/
theorem C6_GetSource_binds_skipped_device :
    loaderWithNamelessDevice.sources_ = [(1, "Cam B")] ∧
    (unnamedDevice 100 demoCameraWithMic).hasFriendlyName = false ∧
    loaderWithNamelessDevice.GetSource platformWithNamelessDevice 0 [] =
      (some demoCameraWithMic,
        { loaderWithNamelessDevice with source_enum_ := some (IEnum.mk
            [unnamedDevice 100 demoCameraWithMic, namedDevice 101 "Cam B" demoCamera]
            [namedDevice 101 "Cam B" demoCamera]) },
        [Call.Reset, Call.BindToObject (unnamedDevice 100 demoCameraWithMic)]) ∧
    loaderWithNamelessDevice.GetSource platformWithNamelessDevice 1 [] =
      (none, loaderWithNamelessDevice, []) := by
  decide

/-- C7. For every C++ `int` index that is negative or at least the number of recorded
sources (hence also every index at least the number of devices of the enumeration,
which is no smaller), `GetSource(index)` returns a null filter, leaves the loader as
it was and issues no platform call: no `Reset`, no `BindToObject`.  `size_t` has at
least 32 bits, and `sources_` holds at most `2 ^ 31` entries (its keys are
non-negative `int`s). -/
theorem C7_GetSource_rejects_out_of_range_index (P : Platform) (self : CaptureSourceLoader)
    (index : Int) (calls : List Call) (hbits : 32 ≤ P.size_t_bits)
    (hmin : -2147483648 ≤ index) (hmax : index < 2147483648)
    (hsize : self.sources_.length ≤ 2147483648)
    (hidx : index < 0 ∨ (self.sources_.length : Int) ≤ index) :
    self.GetSource P index calls = (none, self, calls) := by
  have h := static_cast_size_t_ge P index self.sources_.length hbits hmin hmax hsize hidx
  unfold CaptureSourceLoader.GetSource
  simp [h]

/-- C7 at a concrete input: index 5 against a two-device enumeration, and index -1. -/
theorem C7_GetSource_witness :
    ((CaptureSourceLoader.Init sampleCodes twoCameraPlatform
        CaptureSourceLoader.new GUID.CLSID_VideoInputDeviceCategory []).2.1.sources_
        = [(0, "Cam A"), (1, "Cam B")]) ∧
    ((CaptureSourceLoader.Init sampleCodes twoCameraPlatform
        CaptureSourceLoader.new GUID.CLSID_VideoInputDeviceCategory []).2.1.GetSource
        twoCameraPlatform 5 []).1 = none ∧
    ((CaptureSourceLoader.Init sampleCodes twoCameraPlatform
        CaptureSourceLoader.new GUID.CLSID_VideoInputDeviceCategory []).2.1.GetSource
        twoCameraPlatform (-1) []).2.2 = [] :=
  ⟨by decide,
    congrArg Prod.fst (C7_GetSource_rejects_out_of_range_index twoCameraPlatform
      (CaptureSourceLoader.Init sampleCodes twoCameraPlatform
        CaptureSourceLoader.new GUID.CLSID_VideoInputDeviceCategory []).2.1
      5 [] (by decide) (by decide) (by decide) (by decide) (by decide)),
    congrArg (fun r => r.2.2) (C7_GetSource_rejects_out_of_range_index twoCameraPlatform
      (CaptureSourceLoader.Init sampleCodes twoCameraPlatform
        CaptureSourceLoader.new GUID.CLSID_VideoInputDeviceCategory []).2.1
      (-1) [] (by decide) (by decide) (by decide) (by decide) (by decide))⟩

/-- C8. Called with an empty source name on an object whose video source enumerates
its pins and has a pin that is both an output and audio, `CreateAudioSource` returns
`kSuccess` with `audio_source_` set to the video source filter and everything else,
the call log included, as it was: no device enumeration, no `AddFilter`.  Whenever
`CreateAudioSource` issues any platform call, the video source has no audio output
pin; and when the video source enumerates its pins and has none, the calls it issues
start with the creation of the system device enumerator. -/
theorem C8_CreateAudioSource_reuses_video_source (c : Codes) (P : Platform)
    (self : WebmEncoderImpl) (hc : c.WellFormed) :
    let r := WebmEncoderImpl.CreateAudioSource c P "" self
    let audio_out : IPin → Prop := fun p =>
      (PinInfo.mk (some p)).IsOutput = true ∧ (PinInfo.mk (some p)).IsAudio = true
    (∀ f, self.video_source_ = some f → FAILED f.EnumPins = false →
      (∃ p ∈ f.pins, audio_out p) →
      r = (Outcome.returned c.impl.kSuccess, { self with audio_source_ := some f })) ∧
    (r.2.calls ≠ self.calls →
      ∀ f, self.video_source_ = some f → ∀ p ∈ f.pins, ¬ audio_out p) ∧
    (∀ f, self.video_source_ = some f → FAILED f.EnumPins = false →
      (∀ p ∈ f.pins, ¬ audio_out p) →
      ∃ tail, r.2.calls =
        self.calls ++ Call.CreateInstance GUID.CLSID_SystemDeviceEnum :: tail) := by
  intro r audio_out
  obtain ⟨e0, _, _, hInit, _, _, _, _, _, _⟩ := hc
  have hreuse : ∀ f, self.video_source_ = some f → FAILED f.EnumPins = false →
      (∃ p ∈ f.pins, audio_out p) →
      r = (Outcome.returned c.impl.kSuccess, { self with audio_source_ := some f }) := by
    intro f hvs henum ⟨p, hp, hout, haudio⟩
    have hfind := FindPin_fresh_zero (fun i => i.IsOutput && i.IsAudio) f.pins
    have hsome : (f.pins.find? (fun p => (PinInfo.mk (some p)).IsOutput &&
        (PinInfo.mk (some p)).IsAudio)).isSome = true := by
      rw [List.find?_isSome]
      exact ⟨p, hp, by simp [hout, haudio]⟩
    have hsome2 : (PinFinder.FindAudioOutputPin ⟨some (IEnum.fresh f.pins)⟩ 0).1.isSome
        = true := by
      unfold PinFinder.FindAudioOutputPin; rw [hfind]; exact hsome
    simp [r, WebmEncoderImpl.CreateAudioSource, hvs, PinFinder.Init, henum, e0, hsome2]
  refine ⟨hreuse, ?_, ?_⟩
  · intro hcalls f hvs p hp hpin
    apply hcalls
    by_cases henum : FAILED f.EnumPins = true
    · simp [r, WebmEncoderImpl.CreateAudioSource, hvs, PinFinder.Init, henum, hInit]
    · have henum : FAILED f.EnumPins = false := by simpa using henum
      rw [hreuse f hvs henum ⟨p, hp, hpin⟩]
  · intro f hvs henum hnone
    have hfind := FindPin_fresh_zero (fun i => i.IsOutput && i.IsAudio) f.pins
    have hnone2 : (PinFinder.FindAudioOutputPin ⟨some (IEnum.fresh f.pins)⟩ 0).1.isSome
        = false := by
      unfold PinFinder.FindAudioOutputPin
      rw [hfind, Bool.eq_false_iff, ne_eq, List.find?_isSome]
      rintro ⟨p, hp, hw⟩
      simp only [Bool.and_eq_true] at hw
      exact hnone p hp hw
    obtain ⟨t1, ht1⟩ := FindAllSources_calls c P
      { CaptureSourceLoader.new with source_type_ := GUID.CLSID_AudioInputDeviceCategory }
      self.calls
    have hinit : CaptureSourceLoader.Init c P CaptureSourceLoader.new
        GUID.CLSID_AudioInputDeviceCategory self.calls =
        CaptureSourceLoader.FindAllSources c P
          { CaptureSourceLoader.new with source_type_ := GUID.CLSID_AudioInputDeviceCategory }
          self.calls := by
      simp [CaptureSourceLoader.Init]
    rcases hres : CaptureSourceLoader.FindAllSources c P
      { CaptureSourceLoader.new with source_type_ := GUID.CLSID_AudioInputDeviceCategory }
      self.calls with ⟨status, loader, calls1⟩
    rw [hres] at ht1
    simp only at ht1
    obtain ⟨t2, ht2⟩ := GetSource_calls P loader 0 calls1
    rcases hget : CaptureSourceLoader.GetSource P loader 0 calls1 with ⟨source, l2, calls2⟩
    rw [hget] at ht2
    simp only at ht2
    simp only [r, WebmEncoderImpl.CreateAudioSource, hvs, PinFinder.Init, henum, e0, hnone2,
      hinit, hres, hget, ne_eq, not_true_eq_false, if_false, Bool.false_eq_true]
    by_cases hst : status = 0
    · cases source with
      | none => exact ⟨t1 ++ t2, by simp [hst, ht2, ht1]⟩
      | some src =>
        cases hg : self.graph_builder_ with
        | false => exact ⟨t1 ++ t2, by simp [hst, ht2, ht1, hg]⟩
        | true =>
          by_cases hadd : FAILED (P.AddFilter src kAudioSourceName) = true
          · exact ⟨t1 ++ t2 ++ [Call.AddFilter src kAudioSourceName],
              by simp [hst, ht2, ht1, hadd, hg]⟩
          · exact ⟨t1 ++ t2 ++ [Call.AddFilter src kAudioSourceName],
              by simp [hst, ht2, ht1, hadd, hg]⟩
    · exact ⟨t1, by simp [hst, ht1]⟩

/-- C8 at a concrete input: a camera with a microphone is both video and audio
source, and no call is issued; with a camera that has no audio pin the audio devices
are enumerated. -/
theorem C8_CreateAudioSource_witness :
    sampleCodes.WellFormed ∧
    WebmEncoderImpl.CreateAudioSource sampleCodes twoCameraPlatform ""
        { WebmEncoderImpl.new with video_source_ := some demoCameraWithMic } =
      (Outcome.returned 0, { WebmEncoderImpl.new with
        video_source_ := some demoCameraWithMic, audio_source_ := some demoCameraWithMic }) ∧
    (WebmEncoderImpl.CreateAudioSource sampleCodes twoCameraPlatform ""
        { WebmEncoderImpl.new with video_source_ := some demoCamera }).2.calls =
      [Call.CreateInstance GUID.CLSID_SystemDeviceEnum,
        Call.CreateClassEnumerator GUID.CLSID_AudioInputDeviceCategory] :=
  ⟨by decide,
    (C8_CreateAudioSource_reuses_video_source sampleCodes twoCameraPlatform
      { WebmEncoderImpl.new with video_source_ := some demoCameraWithMic } (by decide)).1
      demoCameraWithMic rfl (by decide)
      ⟨demoPin 21 PIN_DIRECTION.PINDIR_OUTPUT GUID.MEDIATYPE_Audio, by decide, by decide⟩,
    by decide⟩

/-- C9. `CreateVpxEncoder` returns `kSuccess` only after the encoder was created,
added to the graph (which needs a non-null `graph_builder_`) and queried for
`IVP8Encoder`, and the three configuration calls SetDeadline(kDeadlineRealtime),
SetEndUsage(kEndUsageCBR), SetTargetBitrate(500) were issued in that order and all
succeeded (and then it does return `kSuccess`).  Once configuration is reached, the
first failing configuration call makes it return `kVpxConfigureError`, with no
configuration call issued after the failed one.  On a null `graph_builder_` a created
encoder is not added: `E_POINTER` is raised after `CreateInstance` alone. -/
theorem C9_CreateVpxEncoder_applies_fixed_profile (c : Codes) (P : Platform)
    (self : WebmEncoderImpl) (hc : c.WellFormed) :
    let r := WebmEncoderImpl.CreateVpxEncoder c P self
    let setup := self.calls ++ [Call.CreateInstance GUID.CLSID_VP8Encoder,
      Call.AddFilter P.vp8_encoder kVpxEncoderName,
      Call.QueryInterface_IVP8Encoder P.vp8_encoder]
    let configurable : Prop := self.graph_builder_ = true ∧
      FAILED (P.CreateInstance GUID.CLSID_VP8Encoder) = false ∧
      FAILED (P.AddFilter P.vp8_encoder kVpxEncoderName) = false ∧
      P.QueryInterface_IVP8Encoder P.vp8_encoder = true
    let deadline_ok := FAILED (P.SetDeadline VP8Deadline.kDeadlineRealtime) = false
    let usage_ok := FAILED (P.SetEndUsage VP8EndUsage.kEndUsageCBR) = false
    let bitrate_ok := FAILED (P.SetTargetBitrate 500) = false
    (r.1 = Outcome.returned c.impl.kSuccess ↔
      configurable ∧ deadline_ok ∧ usage_ok ∧ bitrate_ok) ∧
    (r.1 = Outcome.returned c.impl.kSuccess →
      r.2.vpx_encoder_ = some P.vp8_encoder ∧
      r.2.calls = setup ++ [Call.SetDeadline VP8Deadline.kDeadlineRealtime,
        Call.SetEndUsage VP8EndUsage.kEndUsageCBR, Call.SetTargetBitrate 500]) ∧
    (configurable → ¬ deadline_ok →
      r.1 = Outcome.returned c.impl.kVpxConfigureError ∧
      r.2.calls = setup ++ [Call.SetDeadline VP8Deadline.kDeadlineRealtime]) ∧
    (configurable → deadline_ok → ¬ usage_ok →
      r.1 = Outcome.returned c.impl.kVpxConfigureError ∧
      r.2.calls = setup ++ [Call.SetDeadline VP8Deadline.kDeadlineRealtime,
        Call.SetEndUsage VP8EndUsage.kEndUsageCBR]) ∧
    (configurable → deadline_ok → usage_ok → ¬ bitrate_ok →
      r.1 = Outcome.returned c.impl.kVpxConfigureError ∧
      r.2.calls = setup ++ [Call.SetDeadline VP8Deadline.kDeadlineRealtime,
        Call.SetEndUsage VP8EndUsage.kEndUsageCBR, Call.SetTargetBitrate 500]) ∧
    (self.graph_builder_ = false →
      FAILED (P.CreateInstance GUID.CLSID_VP8Encoder) = false →
      r = (Outcome.raised E_POINTER,
        { self with vpx_encoder_ := some P.vp8_encoder,
                    calls := self.calls ++ [Call.CreateInstance GUID.CLSID_VP8Encoder] })) := by
  intro r setup configurable deadline_ok usage_ok bitrate_ok
  obtain ⟨_, i0, _, _, _, _, _, _, _, _, hAdd, hCreate, hConf, hVpx, _, _⟩ := hc
  have n1 : ¬ c.impl.kCannotCreateVpxEncoder = c.impl.kSuccess := by rw [i0]; exact hCreate
  have n2 : ¬ c.impl.kCannotAddFilter = c.impl.kSuccess := by rw [i0]; exact hAdd
  have n3 : ¬ c.impl.kCannotConfigureVpxEncoder = c.impl.kSuccess := by rw [i0]; exact hConf
  have n4 : ¬ c.impl.kVpxConfigureError = c.impl.kSuccess := by rw [i0]; exact hVpx
  simp only [r, setup, configurable, deadline_ok, usage_ok, bitrate_ok,
    WebmEncoderImpl.CreateVpxEncoder, kVpxEncoderBitrate]
  by_cases h1 : FAILED (P.CreateInstance GUID.CLSID_VP8Encoder) = true
  · simp [h1, n1]
  · cases hg : self.graph_builder_ with
    | false => simp [h1]
    | true =>
      by_cases h2 : FAILED (P.AddFilter P.vp8_encoder kVpxEncoderName) = true
      · simp [h1, h2, n2]
      · by_cases h3 : P.QueryInterface_IVP8Encoder P.vp8_encoder = true
        · by_cases h4 : FAILED (P.SetDeadline VP8Deadline.kDeadlineRealtime) = true
          · simp [h1, h2, h3, h4, n4]
          · by_cases h5 : FAILED (P.SetEndUsage VP8EndUsage.kEndUsageCBR) = true
            · simp [h1, h2, h3, h4, h5, n4]
            · by_cases h6 : FAILED (P.SetTargetBitrate 500) = true
              · simp [h1, h2, h3, h4, h5, h6, n4]
              · simp [h1, h2, h3, h4, h5, h6]
        · simp [h1, h2, h3, n3]

/-- C9 at a concrete input: after `CreateGraph` has created the graph, an encoder that
rejects `SetEndUsage` makes `CreateVpxEncoder` return `kVpxConfigureError` after
`SetDeadline` and `SetEndUsage`, with no `SetTargetBitrate`; and on the object as
constructed, whose `graph_builder_` is null, `E_POINTER` is raised after
`CreateInstance` alone. -/
theorem C9_CreateVpxEncoder_witness :
    (sampleCodes.WellFormed ∧ demoBuiltGraph.graph_builder_ = true) ∧
    ((WebmEncoderImpl.CreateVpxEncoder sampleCodes platformRejectingEndUsage
        demoBuiltGraph).1 = Outcome.returned sampleCodes.impl.kVpxConfigureError ∧
      (WebmEncoderImpl.CreateVpxEncoder sampleCodes platformRejectingEndUsage
        demoBuiltGraph).2.calls =
        demoBuiltGraph.calls ++
          [Call.CreateInstance GUID.CLSID_VP8Encoder,
            Call.AddFilter platformRejectingEndUsage.vp8_encoder kVpxEncoderName,
            Call.QueryInterface_IVP8Encoder platformRejectingEndUsage.vp8_encoder] ++
          [Call.SetDeadline VP8Deadline.kDeadlineRealtime,
            Call.SetEndUsage VP8EndUsage.kEndUsageCBR]) ∧
    WebmEncoderImpl.CreateVpxEncoder sampleCodes platformRejectingEndUsage
        WebmEncoderImpl.new =
      (Outcome.raised E_POINTER,
        { WebmEncoderImpl.new with
          vpx_encoder_ := some platformRejectingEndUsage.vp8_encoder,
          calls := WebmEncoderImpl.new.calls ++ [Call.CreateInstance GUID.CLSID_VP8Encoder] }) :=
  ⟨⟨by decide, by decide⟩,
    (C9_CreateVpxEncoder_applies_fixed_profile sampleCodes platformRejectingEndUsage
      demoBuiltGraph (by decide)).2.2.2.1 (by decide) (by decide) (by decide),
    (C9_CreateVpxEncoder_applies_fixed_profile sampleCodes platformRejectingEndUsage
      WebmEncoderImpl.new (by decide)).2.2.2.2.2 (by decide) (by decide)⟩

/-- C10. `ConnectVideoSourceToVpxEncoder` returns `kSuccess` only when `graph_builder_`
is non-null, the source it passed to `ConnectDirect` is a pin of the video source whose
`QueryDirection` answers output and which advertises a video media type, the sink is a
pin of the encoder whose `QueryDirection` answers input and which advertises a video
media type, and that one request, made with a null media type, succeeded.  If the
video source has no video output pin, or the encoder no video input pin, it returns
`kVideoConnectError` and requests no connection.  In every run it requests at most one
connection, and only between such a pair of pins.  On a null `graph_builder_` it
requests none and does not return `kSuccess`. -/
theorem C10_Connect_only_video_output_to_video_input (c : Codes) (P : Platform)
    (self : WebmEncoderImpl) (hc : c.WellFormed) :
    let r := WebmEncoderImpl.ConnectVideoSourceToVpxEncoder c P self
    let video_out : IPin → Prop := fun p =>
      p.HasDirection PIN_DIRECTION.PINDIR_OUTPUT ∧ p.Advertises GUID.MEDIATYPE_Video
    let video_in : IPin → Prop := fun p =>
      p.HasDirection PIN_DIRECTION.PINDIR_INPUT ∧ p.Advertises GUID.MEDIATYPE_Video
    (r.1 = Outcome.returned c.impl.kSuccess →
      self.graph_builder_ = true ∧
      ∃ vs enc src sink, self.video_source_ = some vs ∧ self.vpx_encoder_ = some enc ∧
        src ∈ vs.pins ∧ video_out src ∧ sink ∈ enc.pins ∧ video_in sink ∧
        FAILED (P.ConnectDirect src sink none) = false ∧
        r.2.calls = self.calls ++ [Call.ConnectDirect src sink none]) ∧
    ((∀ vs, self.video_source_ = some vs → ∀ p ∈ vs.pins, ¬ video_out p) →
      r = (Outcome.returned c.impl.kVideoConnectError, self)) ∧
    ((∀ enc, self.vpx_encoder_ = some enc → ∀ p ∈ enc.pins, ¬ video_in p) →
      r = (Outcome.returned c.impl.kVideoConnectError, self)) ∧
    (r.2.calls = self.calls ∨
      ∃ src sink, video_out src ∧ video_in sink ∧
        r.2.calls = self.calls ++ [Call.ConnectDirect src sink none]) ∧
    (self.graph_builder_ = false →
      r.2 = self ∧ r.1 ≠ Outcome.returned c.impl.kSuccess) := by
  intro r video_out video_in
  have hne : ¬ c.impl.kVideoConnectError = c.impl.kSuccess := by
    rw [hc.2.1]; exact hc.2.2.2.2.2.2.2.2.2.2.2.2.2.2.1
  rcases Connect_cases c P self hc with h | ⟨vs, enc, src, sink, hvs, henc, _, _, hsrc, hsink, h⟩
  · have hr : r = (Outcome.returned c.impl.kVideoConnectError, self) := h
    refine ⟨?_, fun _ => hr, fun _ => hr, ?_, ?_⟩
    · intro hs; rw [hr] at hs; exact absurd (Outcome.returned.inj hs) hne
    · left; rw [hr]
    · intro _
      rw [hr]
      exact ⟨rfl, fun hs => hne (Outcome.returned.inj hs)⟩
  · have hr : r = if self.graph_builder_ = true then
          (Outcome.returned (if FAILED (P.ConnectDirect src sink none)
              then c.impl.kVideoConnectError else c.impl.kSuccess),
            { self with calls := self.calls ++ [Call.ConnectDirect src sink none] })
        else (Outcome.raised E_POINTER, self) := h
    have hsrc_mem := List.mem_of_find?_eq_some hsrc
    have hsrc_ok : video_out src := by
      have hw := List.find?_some hsrc
      exact (wanted_video_output src).mp hw
    have hsink_mem := List.mem_of_find?_eq_some hsink
    have hsink_ok : video_in sink := by
      have hw := List.find?_some hsink
      exact (wanted_video_input sink).mp hw
    by_cases hg : self.graph_builder_ = true
    · rw [if_pos hg] at hr
      refine ⟨?_, ?_, ?_, ?_, ?_⟩
      · intro hs
        refine ⟨hg, vs, enc, src, sink, hvs, henc, hsrc_mem, hsrc_ok, hsink_mem, hsink_ok,
          ?_, ?_⟩
        · by_cases hcd : FAILED (P.ConnectDirect src sink none) = true
          · rw [hr] at hs; simp [hcd, hne] at hs
          · simpa using hcd
        · rw [hr]
      · intro habs
        exact absurd hsrc_ok (habs vs hvs src hsrc_mem)
      · intro habs
        exact absurd hsink_ok (habs enc henc sink hsink_mem)
      · right
        exact ⟨src, sink, hsrc_ok, hsink_ok, by rw [hr]⟩
      · intro hf; rw [hg] at hf; cases hf
    · rw [if_neg hg] at hr
      refine ⟨?_, ?_, ?_, ?_, ?_⟩
      · intro hs; rw [hr] at hs; cases hs
      · intro habs
        exact absurd hsrc_ok (habs vs hvs src hsrc_mem)
      · intro habs
        exact absurd hsink_ok (habs enc henc sink hsink_mem)
      · left; rw [hr]
      · intro _
        rw [hr]
        exact ⟨rfl, fun hs => by cases hs⟩

/-- C10 at a concrete input: on a platform where every call succeeds, after the first
three steps of `Init`, `ConnectVideoSourceToVpxEncoder` returns `kSuccess`, so the
single `ConnectDirect` is on an output pin of the camera and an input pin of the
encoder, both advertising video: the camera's pin 10 and the encoder's pin 40. -/
theorem C10_Connect_witness :
    sampleCodes.WellFormed ∧
    (WebmEncoderImpl.ConnectVideoSourceToVpxEncoder sampleCodes twoCameraPlatform
      (WebmEncoderImpl.beforeConnect sampleCodes twoCameraPlatform WebmEncoderImpl.new)).1 =
      Outcome.returned sampleCodes.impl.kSuccess ∧
    ((WebmEncoderImpl.beforeConnect sampleCodes twoCameraPlatform
        WebmEncoderImpl.new).graph_builder_ = true ∧
      ∃ vs enc src sink,
        (WebmEncoderImpl.beforeConnect sampleCodes twoCameraPlatform
          WebmEncoderImpl.new).video_source_ = some vs ∧
        (WebmEncoderImpl.beforeConnect sampleCodes twoCameraPlatform
          WebmEncoderImpl.new).vpx_encoder_ = some enc ∧
        src ∈ vs.pins ∧
        (src.HasDirection PIN_DIRECTION.PINDIR_OUTPUT ∧ src.Advertises GUID.MEDIATYPE_Video) ∧
        sink ∈ enc.pins ∧
        (sink.HasDirection PIN_DIRECTION.PINDIR_INPUT ∧ sink.Advertises GUID.MEDIATYPE_Video) ∧
        FAILED (twoCameraPlatform.ConnectDirect src sink none) = false ∧
        (WebmEncoderImpl.ConnectVideoSourceToVpxEncoder sampleCodes twoCameraPlatform
          (WebmEncoderImpl.beforeConnect sampleCodes twoCameraPlatform
            WebmEncoderImpl.new)).2.calls =
          (WebmEncoderImpl.beforeConnect sampleCodes twoCameraPlatform
            WebmEncoderImpl.new).calls ++ [Call.ConnectDirect src sink none]) ∧
    (WebmEncoderImpl.ConnectVideoSourceToVpxEncoder sampleCodes twoCameraPlatform
      (WebmEncoderImpl.beforeConnect sampleCodes twoCameraPlatform WebmEncoderImpl.new)).2.calls
      = (WebmEncoderImpl.beforeConnect sampleCodes twoCameraPlatform WebmEncoderImpl.new).calls
        ++ [Call.ConnectDirect (demoPin 10 PIN_DIRECTION.PINDIR_OUTPUT GUID.MEDIATYPE_Video)
            (demoPin 40 PIN_DIRECTION.PINDIR_INPUT GUID.MEDIATYPE_Video) none] :=
  ⟨by decide, by decide,
    (C10_Connect_only_video_output_to_video_input sampleCodes twoCameraPlatform
      (WebmEncoderImpl.beforeConnect sampleCodes twoCameraPlatform WebmEncoderImpl.new)
      (by decide)).1 (by decide),
    by decide⟩

/-- C11, the code at the failing input.  The filter is a camera with one video output
pin, and its pins do not change.  On a finder initialised on it, `FindVideoOutputPin(0)`
returns that pin and leaves the enumerator behind it; no `Find...Pin` function resets
the enumerator, so the same call made again in succession returns the null pin. -/
theorem C11_second_FindVideoOutputPin_returns_null :
    ((PinFinder.Init sampleCodes ⟨none⟩ (some demoCamera)).2.FindVideoOutputPin 0).1 =
      some (demoPin 10 PIN_DIRECTION.PINDIR_OUTPUT GUID.MEDIATYPE_Video) ∧
    ((PinFinder.Init sampleCodes ⟨none⟩ (some demoCamera)).2.FindVideoOutputPin 0).2 =
      ⟨some (IEnum.mk demoCamera.pins [])⟩ ∧
    (((PinFinder.Init sampleCodes ⟨none⟩ (some demoCamera)).2.FindVideoOutputPin 0).2
      |>.FindVideoOutputPin 0).1 = none := by
  decide

end WebmLive
